import Mathlib

/-!
Shallow embedding of the DRM PRIME video presentation core:
`CVideoLayerBridgeDRMPRIME` (VideoLayerBridgeDRMPRIME.cpp) and
`CRendererDRMPRIMEGLES` (RendererDRMPRIMEGLES.cpp).

Machine integers are modelled as `Nat`/`Int`; DRM ids, GEM handles and
reference counts are `Nat`.  External collaborators (libdrm calls, the EGL
window system, EDID capability queries) are modelled as oracle fields of
environment records, and the side effects performed through them are
recorded in explicit event traces.
-/

namespace DRMPrime

/-! ### DRM constants (drm_fourcc.h / drm_mode.h) -/

/-- fourcc R8, one 8-bit single-channel plane. -/
def DRM_FORMAT_R8 : Nat := 0x20203852

/-- fourcc GR88, two interleaved 8-bit channels. -/
def DRM_FORMAT_GR88 : Nat := 0x38385247

/-- fourcc R16, one 16-bit single-channel plane. -/
def DRM_FORMAT_R16 : Nat := 0x20363152

/-- fourcc GR32 alias GR1616, two interleaved 16-bit channels. -/
def DRM_FORMAT_GR1616 : Nat := 0x32325247

/-- fourcc NV12, semi-planar 8-bit 4:2:0. -/
def DRM_FORMAT_NV12 : Nat := 0x3231564e

/-- fourcc P010, semi-planar 10-bit 4:2:0. -/
def DRM_FORMAT_P010 : Nat := 0x30313050

/-- fourcc YU12, fully planar 8-bit 4:2:0. -/
def DRM_FORMAT_YUV420 : Nat := 0x32315559

/-- DRM_FORMAT_MOD_INVALID sentinel modifier. -/
def DRM_FORMAT_MOD_INVALID : Nat := 0x00ffffffffffffff

/-- DRM_MODE_FB_MODIFIERS flag for drmModeAddFB2WithModifiers. -/
def DRM_MODE_FB_MODIFIERS : Nat := 2

/-! ### AVDRMFrameDescriptor (libavutil/hwcontext_drm.h) -/

/-- AVDRMObjectDescriptor: one underlying dma-buf object. -/
structure ObjectDesc where
  fd : Nat
  format_modifier : Nat
  deriving DecidableEq, Repr

/-- AVDRMPlaneDescriptor: one plane of a layer. -/
structure PlaneDesc where
  object_index : Nat
  pitch : Nat
  offset : Nat
  deriving DecidableEq, Repr

/-- AVDRMLayerDescriptor: `nb_planes` is the length of `planes`. -/
structure LayerDesc where
  format : Nat
  planes : List PlaneDesc
  deriving DecidableEq, Repr

/-- AVDRMFrameDescriptor: `nb_objects`/`nb_layers` are list lengths. -/
structure FrameDescriptor where
  objects : List ObjectDesc
  layers : List LayerDesc
  deriving DecidableEq, Repr

/-! ### CVideoBufferDRMPRIME -/

/-- One decoder buffer (`CVideoBufferDRMPRIME`).  `refCount` is the decoder
reference count adjusted by `Acquire`/`Release`; `m_fb_id` and `m_handles`
are the Bridge-owned imported-framebuffer state (handles has length 4,
`AV_DRM_MAX_PLANES`); `descRefs` counts descriptor acquisitions.
`acquireDescOk` is the external outcome of `AcquireDescriptor`. -/
structure PrimeBuffer where
  refCount : Nat
  m_fb_id : Nat
  m_handles : List Nat
  descRefs : Nat
  descriptor : FrameDescriptor
  acquireDescOk : Bool
  width : Nat
  height : Nat
  deriving DecidableEq, Repr

/-! ### Atomic-property names and bridge events -/

/-- DRM property names staged via `CDRMAtomic::AddProperty`. -/
inductive PName
  | FB_ID | CRTC_ID | SRC_X | SRC_Y | SRC_W | SRC_H
  | CRTC_X | CRTC_Y | CRTC_W | CRTC_H
  | COLOR_ENCODING | COLOR_RANGE | Colorspace | HDR_OUTPUT_METADATA
  deriving DecidableEq, Repr

/-- Observable external calls made by the Bridge. -/
inductive BridgeEvent
  | primeFD (fd : Nat) (ok : Bool)
  | addFB (ok : Bool) (format : Nat) (flags : Nat)
  | rmFB (fbId : Nat)
  | gemClose (handle : Nat)
  | acquireDesc
  | releaseDesc
  | acquireRef (buf : Nat)
  | releaseRef (buf : Nat)
  | stageProp (p : PName) (v : Int)
  | setActiveEv
  | createBlob (id : Nat)
  | destroyBlob (id : Nat)
  | logErr
  deriving DecidableEq, Repr

/-! ### Bridge state -/

/-- State of `CVideoLayerBridgeDRMPRIME` plus the decoder-buffer pool and the
DRM-side set of live HDR property blobs.  Buffers are addressed by `Nat`
ids; `m_buffer`/`m_prev_buffer` are the two held buffer pointers.
`liveBlobs`/`nextBlobId` model the kernel blob table behind
`drmModeCreatePropertyBlob`/`drmModeDestroyPropertyBlob`. -/
structure BridgeState where
  buffers : Nat → PrimeBuffer
  m_buffer : Option Nat
  m_prev_buffer : Option Nat
  m_hdr_blob_id : Nat
  liveBlobs : List Nat
  nextBlobId : Nat

/-- Pointwise update of the buffer pool. -/
def updateBuf (bs : Nat → PrimeBuffer) (i : Nat) (b : PrimeBuffer) : Nat → PrimeBuffer :=
  fun j => if j = i then b else bs j

/-- External DRM environment for `Map`/`SetVideoPlane`:
`fd2handle` is `drmPrimeFDToHandle` (failure = `none`), `addFBId` is the
framebuffer id returned by `drmModeAddFB2WithModifiers` (failure = `none`),
`crtcId` is `GetCrtc()->GetCrtcId()`. -/
structure DrmEnv where
  fd2handle : Nat → Option Nat
  addFBId : Option Nat
  crtcId : Nat

/-! ### Unmap / Release / Acquire -/

/-- The GEM-close loop of `Unmap`: every non-zero handle is closed
(emitting a `gemClose` event) and zeroed. -/
def closeHandles : List Nat → List Nat × List BridgeEvent
  | [] => ([], [])
  | h :: t =>
    let r := closeHandles t
    if h ≠ 0 then (0 :: r.1, BridgeEvent.gemClose h :: r.2) else (0 :: r.1, r.2)

/-- `CVideoLayerBridgeDRMPRIME::Unmap`: remove the framebuffer if one is
live, close every imported handle, release the descriptor reference. -/
def Unmap (st : BridgeState) (bid : Nat) : BridgeState × List BridgeEvent :=
  let b := st.buffers bid
  let fbEv := if b.m_fb_id ≠ 0 then [BridgeEvent.rmFB b.m_fb_id] else []
  let b := { b with m_fb_id := 0 }
  let r := closeHandles b.m_handles
  let b := { b with m_handles := r.1, descRefs := b.descRefs - 1 }
  ({ st with buffers := updateBuf st.buffers bid b },
   fbEv ++ r.2 ++ [BridgeEvent.releaseDesc])

/-- `CVideoLayerBridgeDRMPRIME::Release`: no-op on null, otherwise
`Unmap` then drop the decoder reference. -/
def ReleaseB (st : BridgeState) (ob : Option Nat) : BridgeState × List BridgeEvent :=
  match ob with
  | none => (st, [])
  | some bid =>
    let u := Unmap st bid
    let b := u.1.buffers bid
    ({ u.1 with buffers := updateBuf u.1.buffers bid { b with refCount := b.refCount - 1 } },
     u.2 ++ [BridgeEvent.releaseRef bid])

/-- `CVideoLayerBridgeDRMPRIME::Acquire`: release `m_prev_buffer`, shift
`m_buffer` into `m_prev_buffer`, install the new buffer with one added
decoder reference. -/
def Acquire (st : BridgeState) (bid : Nat) : BridgeState × List BridgeEvent :=
  let r := ReleaseB st st.m_prev_buffer
  let st1 := { r.1 with m_prev_buffer := r.1.m_buffer, m_buffer := some bid }
  let b := st1.buffers bid
  ({ st1 with buffers := updateBuf st1.buffers bid { b with refCount := b.refCount + 1 } },
   r.2 ++ [BridgeEvent.acquireRef bid])

/-! ### Map -/

/-- The prime-fd-to-GEM-handle conversion loop of `Map`: objects are
converted in order into `m_handles[objectIndex]`; the loop stops at the
first failing `drmPrimeFDToHandle`, leaving earlier handles written. -/
def fdConvert (env : DrmEnv) (objs : List ObjectDesc) (idx : Nat) (handles : List Nat) :
    Bool × List Nat × List BridgeEvent :=
  match objs with
  | [] => (true, handles, [])
  | o :: rest =>
    match env.fd2handle o.fd with
    | none => (false, handles, [BridgeEvent.primeFD o.fd false, BridgeEvent.logErr])
    | some h =>
      let r := fdConvert env rest (idx + 1) (handles.set idx h)
      (r.1, r.2.1, BridgeEvent.primeFD o.fd true :: r.2.2)

/-- The handles/pitches/offsets/modifier arrays passed to
`drmModeAddFB2WithModifiers`. -/
structure FbArrays where
  handles : List Nat
  pitches : List Nat
  offsets : List Nat
  modifier : List Nat
  deriving DecidableEq, Repr

/-- Index the object-to-layer-to-plane walk writes to: the plane index,
except that with multiple layers of one plane each the layer index is used
instead (the index fix in `Map`). -/
def writeIdx (nbLayers nbPlanes layerIdx planeIdx : Nat) : Nat :=
  if 1 < nbLayers ∧ nbPlanes = 1 then layerIdx else planeIdx

/-- The array-filling double loop of `Map` over the descriptor layers and
planes. -/
def fillArrays (desc : FrameDescriptor) (bufHandles : List Nat) : FbArrays :=
  desc.layers.enum.foldl
    (fun acc li =>
      li.2.planes.enum.foldl
        (fun acc2 pj =>
          let obj := desc.objects.getD pj.2.object_index ⟨0, 0⟩
          let w := writeIdx desc.layers.length li.2.planes.length li.1 pj.1
          { handles := acc2.handles.set w (bufHandles.getD pj.2.object_index 0)
            pitches := acc2.pitches.set w pj.2.pitch
            offsets := acc2.offsets.set w pj.2.offset
            modifier := acc2.modifier.set w obj.format_modifier })
        acc)
    ⟨[0, 0, 0, 0], [0, 0, 0, 0], [0, 0, 0, 0], [0, 0, 0, 0]⟩

/-- The format-inference chain of `Map`: start from layer 0, switch to
NV12/P010 for the two-layer planar splits and to YUV420 for the
three-layer split. -/
def inferFormat (desc : FrameDescriptor) : Nat :=
  let l := fun i => (desc.layers.getD i ⟨0, []⟩).format
  let format := l 0
  let format :=
    if desc.layers.length = 2 ∧ l 0 = DRM_FORMAT_R8 ∧ l 1 = DRM_FORMAT_GR88 then
      DRM_FORMAT_NV12
    else format
  let format :=
    if desc.layers.length = 2 ∧ l 0 = DRM_FORMAT_R16 ∧ l 1 = DRM_FORMAT_GR1616 then
      DRM_FORMAT_P010
    else format
  let format :=
    if desc.layers.length = 3 ∧ l 0 = DRM_FORMAT_R8 ∧ l 1 = DRM_FORMAT_R8 ∧
        l 2 = DRM_FORMAT_R8 then
      DRM_FORMAT_YUV420
    else format
  format

/-- The framebuffer-creation flags of `Map`: `DRM_MODE_FB_MODIFIERS` exactly
when entry 0 of the modifier array is non-zero and not the invalid
sentinel. -/
def fbFlags (mods : List Nat) : Nat :=
  if mods.getD 0 0 ≠ 0 ∧ mods.getD 0 0 ≠ DRM_FORMAT_MOD_INVALID then DRM_MODE_FB_MODIFIERS
  else 0

/-- `CVideoLayerBridgeDRMPRIME::Map`: early-return true when a framebuffer
id is already live; otherwise acquire the descriptor, convert every prime
fd, build the plane arrays, infer the format and flags, create the
framebuffer and finish with `Acquire`.  Returns the C++ bool result, the
new state and the trace of external calls. -/
def MapB (env : DrmEnv) (st : BridgeState) (bid : Nat) :
    Bool × BridgeState × List BridgeEvent :=
  let b := st.buffers bid
  if b.m_fb_id ≠ 0 then (true, st, [])
  else if b.acquireDescOk = false then (false, st, [BridgeEvent.logErr])
  else
    let b := { b with descRefs := b.descRefs + 1 }
    let conv := fdConvert env b.descriptor.objects 0 b.m_handles
    let b := { b with m_handles := conv.2.1 }
    let st1 := { st with buffers := updateBuf st.buffers bid b }
    if conv.1 = false then (false, st1, BridgeEvent.acquireDesc :: conv.2.2)
    else
      let arrays := fillArrays b.descriptor b.m_handles
      let format := inferFormat b.descriptor
      let flags := fbFlags arrays.modifier
      match env.addFBId with
      | none =>
        (false, st1,
         BridgeEvent.acquireDesc :: conv.2.2 ++
           [BridgeEvent.addFB false format flags, BridgeEvent.logErr])
      | some fb =>
        let b := { b with m_fb_id := fb }
        let st2 := { st1 with buffers := updateBuf st1.buffers bid b }
        let acq := Acquire st2 bid
        (true, acq.1,
         BridgeEvent.acquireDesc :: conv.2.2 ++
           [BridgeEvent.addFB true format flags] ++ acq.2)

/-! ### SetVideoPlane -/

/-- Rounding used for CRTC_X/CRTC_Y: `static_cast<int32_t>(v) & ~1`,
i.e. the nearest even integer not above `v` (coordinates are modelled as
integer-valued, matching the pixel-aligned rectangles the caller passes). -/
def evenFloor (x : Int) : Int := x - x % 2

/-- Rounding used for CRTC_W/CRTC_H:
`(static_cast<uint32_t>(v) + 1) & ~1`, the nearest even integer not below
`v`. -/
def evenCeil (w : Nat) : Nat := (w + 1) - (w + 1) % 2

/-- A destination rectangle (`CRect`), restricted to integer-valued
coordinates; `Width`/`Height` are `x2 - x1` / `y2 - y1`. -/
structure CRect where
  x1 : Int
  y1 : Int
  x2 : Int
  y2 : Int
  deriving DecidableEq, Repr

/-- `CVideoLayerBridgeDRMPRIME::SetVideoPlane`: on Map failure, `Unmap` and
stage nothing; on success stage the framebuffer, crtc, full-extent 16.16
source rectangle and even-aligned destination rectangle. -/
def SetVideoPlane (env : DrmEnv) (st : BridgeState) (bid : Nat) (destRect : CRect) :
    BridgeState × List BridgeEvent :=
  let m := MapB env st bid
  if m.1 = false then
    let u := Unmap m.2.1 bid
    (u.1, m.2.2 ++ u.2)
  else
    let st1 := m.2.1
    let b := st1.buffers bid
    (st1,
     m.2.2 ++
       [BridgeEvent.stageProp PName.FB_ID b.m_fb_id,
        BridgeEvent.stageProp PName.CRTC_ID env.crtcId,
        BridgeEvent.stageProp PName.SRC_X 0,
        BridgeEvent.stageProp PName.SRC_Y 0,
        BridgeEvent.stageProp PName.SRC_W (b.width <<< 16),
        BridgeEvent.stageProp PName.SRC_H (b.height <<< 16),
        BridgeEvent.stageProp PName.CRTC_X (evenFloor destRect.x1),
        BridgeEvent.stageProp PName.CRTC_Y (evenFloor destRect.y1),
        BridgeEvent.stageProp PName.CRTC_W (evenCeil (destRect.x2 - destRect.x1).toNat),
        BridgeEvent.stageProp PName.CRTC_H (evenCeil (destRect.y2 - destRect.y1).toNat)])

/-! ### Configure / Disable (colorimetry and HDR blob handling)

The colorimetry helpers (`GetColorEncoding`, `GetColorimetry`, `GetEOTF`),
the connector property lookups and the EDID capability queries live outside
these two source files; they are external collaborators and appear here as
per-call oracle fields.  The numeric payload written into
`m_hdr_metadata` (floating-point primaries/luminance conversion) is elided:
no claim depends on the blob contents, only on blob-id lifecycle. -/

/-- External oracles for `Configure`/`Disable`: each `Option Nat` is the
(found, value) result of `GetPropertyValue` for this call; the two EDID
bits are `CEDIDUtils::SupportsColorimetry` / `SupportsEOTF` applied to the
current picture; `connSupportsHDR` is
`connector->SupportsProperty(HDR_OUTPUT_METADATA)`. -/
structure HdrEnv where
  planeColorEncoding : Option Nat
  planeColorRange : Option Nat
  connColorspace : Option Nat
  connColorspaceDefault : Option Nat
  edidSupportsColorimetry : Bool
  edidSupportsEOTF : Bool
  connSupportsHDR : Bool
  hasVideoPlane : Bool

/-- `CVideoLayerBridgeDRMPRIME::Configure`: stage plane colour properties,
stage the connector colorspace only when the EDID advertises the requested
colorimetry, and, when the connector exposes HDR_OUTPUT_METADATA and the
EDID supports the EOTF of the picture, destroy the previous blob, create
and stage a fresh one; finally mark the display state active. -/
def ConfigureB (env : HdrEnv) (st : BridgeState) : BridgeState × List BridgeEvent :=
  let ev1 := match env.planeColorEncoding with
    | some v => [BridgeEvent.stageProp PName.COLOR_ENCODING v]
    | none => []
  let ev2 := match env.planeColorRange with
    | some v => [BridgeEvent.stageProp PName.COLOR_RANGE v]
    | none => []
  let ev3 := match env.connColorspace with
    | some v =>
      if env.edidSupportsColorimetry then
        [BridgeEvent.stageProp PName.Colorspace v, BridgeEvent.setActiveEv]
      else []
    | none => []
  if env.connSupportsHDR ∧ env.edidSupportsEOTF then
    let old := st.m_hdr_blob_id
    let evA := if old ≠ 0 then [BridgeEvent.destroyBlob old] else []
    let stA := { st with m_hdr_blob_id := 0, liveBlobs := st.liveBlobs.erase old }
    let newId := stA.nextBlobId
    let stB := { stA with m_hdr_blob_id := newId, nextBlobId := stA.nextBlobId + 1,
                          liveBlobs := newId :: stA.liveBlobs }
    (stB,
     ev1 ++ ev2 ++ ev3 ++ evA ++
       [BridgeEvent.createBlob newId,
        BridgeEvent.stageProp PName.HDR_OUTPUT_METADATA newId,
        BridgeEvent.setActiveEv])
  else
    (st, ev1 ++ ev2 ++ ev3 ++ [BridgeEvent.setActiveEv])

/-- `CVideoLayerBridgeDRMPRIME::Disable`: stage the plane off, reset the
connector colorspace to Default when the property exists, and when the
connector supports HDR metadata stage a null blob, mark active, destroy the
live blob and zero `m_hdr_blob_id`. -/
def DisableB (env : HdrEnv) (st : BridgeState) : BridgeState × List BridgeEvent :=
  let ev0 :=
    if env.hasVideoPlane then
      [BridgeEvent.stageProp PName.FB_ID 0, BridgeEvent.stageProp PName.CRTC_ID 0]
    else []
  let ev1 := match env.connColorspaceDefault with
    | some v => [BridgeEvent.stageProp PName.Colorspace v]
    | none => []
  if env.connSupportsHDR then
    let evs := ev0 ++ ev1 ++
      [BridgeEvent.stageProp PName.HDR_OUTPUT_METADATA 0, BridgeEvent.setActiveEv]
    let old := st.m_hdr_blob_id
    let evA := if old ≠ 0 then [BridgeEvent.destroyBlob old] else []
    ({ st with m_hdr_blob_id := 0, liveBlobs := st.liveBlobs.erase old }, evs ++ evA)
  else (st, ev0 ++ ev1)

/-- Well-formedness of the DRM-side blob table relative to the bridge: at
most one live blob, which (when present) is exactly the non-zero
`m_hdr_blob_id`, and all live ids are below the freshness counter. -/
def blobInv (st : BridgeState) : Prop :=
  st.liveBlobs.length ≤ 1 ∧
  (∀ id ∈ st.liveBlobs, id = st.m_hdr_blob_id ∧ 0 < id ∧ id < st.nextBlobId) ∧
  0 < st.nextBlobId

instance (st : BridgeState) : Decidable (blobInv st) := by
  unfold blobInv; infer_instance

/-! ### CRendererDRMPRIMEGLES -/

/-- AVColorSpace values used by `AddVideoPicture` (libavutil/pixfmt.h). -/
def AVCOL_SPC_BT709 : Nat := 1

/-- AVCOL_SPC_UNSPECIFIED. -/
def AVCOL_SPC_UNSPECIFIED : Nat := 2

/-- AVCOL_SPC_BT470BG. -/
def AVCOL_SPC_BT470BG : Nat := 5

/-- Number of renderer buffer slots.  `NUM_BUFFERS` is declared in the
renderer header, which is not among these sources; the spec fixes it as a
small constant (e.g. 4). -/
def NUM_BUFFERS : Nat := 4

/-- One renderer slot (`CRendererDRMPRIMEGLES::BUFFER`).  `fenceObj` is
whether the `CEGLFence` object exists (allocated by `Configure`, never
freed by `DestroyFence`); `fence` is the underlying EGL sync:
`none` = destroyed or never created, `some s` = created with signalled
state `s`.  `texMapped` is whether the EGL texture set is mapped. -/
structure Slot where
  videoBuffer : Option Nat
  fenceObj : Bool
  fence : Option Bool
  texMapped : Bool
  m_srcPrimaries : Nat
  m_srcColSpace : Nat
  m_srcFullRange : Bool
  m_srcBits : Nat
  deriving DecidableEq, Repr

instance : Inhabited Slot := ⟨⟨none, false, none, false, 0, 0, false, 0⟩⟩

/-- State of `CRendererDRMPRIMEGLES` plus decoder-buffer reference counts. -/
structure RendState where
  refCounts : Nat → Nat
  m_buffers : List Slot
  m_configured : Bool
  m_format : Nat
  m_sourceWidth : Nat
  m_sourceHeight : Nat
  m_renderOrientation : Nat

/-- The fields of `VideoPicture` read by the renderer. -/
structure RendPicture where
  videoBuffer : Nat
  format : Nat
  iWidth : Nat
  iHeight : Nat
  color_space : Nat
  color_primaries : Nat
  color_range : Nat
  colorBits : Nat
  deriving DecidableEq, Repr

/-- External environment of the renderer: window/EGL/render-system
availability, buffer validity and EGL texture-import outcomes. -/
structure RendEnv where
  hasWinSystem : Bool
  isEGLWinSystem : Bool
  hasRenderSystem : Bool
  bufferValid : Nat → Bool
  textureMapOk : Nat → Bool

/-- Observable renderer actions. -/
inductive RendEvent
  | logUnreleased
  | destroyFenceEv
  | unmapTexture
  | releaseRef (b : Nat)
  | acquireRef (b : Nat)
  | mapTexture (b : Nat) (ok : Bool)
  | draw
  | createFenceEv
  deriving DecidableEq, Repr

/-- Decrement one reference count in the pool. -/
def decRef (rc : Nat → Nat) (b : Nat) : Nat → Nat :=
  fun j => if j = b then rc b - 1 else rc j

/-- Increment one reference count in the pool. -/
def incRef (rc : Nat → Nat) (b : Nat) : Nat → Nat :=
  fun j => if j = b then rc b + 1 else rc j

/-- `CRendererDRMPRIMEGLES::ReleaseBuffer`: destroy the fence if the fence
object exists, unmap the texture, release the held buffer reference if
any. -/
def ReleaseBuffer (st : RendState) (index : Nat) : RendState × List RendEvent :=
  let buf := st.m_buffers.getD index default
  let ev1 := if buf.fenceObj then [RendEvent.destroyFenceEv] else []
  let buf := if buf.fenceObj then { buf with fence := none } else buf
  let buf := { buf with texMapped := false }
  match buf.videoBuffer with
  | some b =>
    ({ st with m_buffers := st.m_buffers.set index { buf with videoBuffer := none },
               refCounts := decRef st.refCounts b },
     ev1 ++ [RendEvent.unmapTexture, RendEvent.releaseRef b])
  | none =>
    ({ st with m_buffers := st.m_buffers.set index buf },
     ev1 ++ [RendEvent.unmapTexture])

/-- Release slots `0, 1, ..., n-1` in order. -/
def releaseAll (st : RendState) : Nat → RendState
  | 0 => st
  | n + 1 => (ReleaseBuffer (releaseAll st n) n).1

/-- `CRendererDRMPRIMEGLES::Flush`: release every slot unless
`saveBuffers`; returns `saveBuffers`. -/
def rendFlush (st : RendState) (saveBuffers : Bool) : RendState × Bool :=
  if saveBuffers then (st, saveBuffers)
  else (releaseAll st NUM_BUFFERS, saveBuffers)

/-- `CRendererDRMPRIMEGLES::Configure`: store format, dimensions and
orientation from the picture, flush all slots, then fail if there is no
window system or it is not an EGL one; otherwise allocate a texture/fence
binding for every slot that lacks one and mark configured.  (The render
flag/geometry derivation uses helpers outside these sources and no claim
depends on it.) -/
def rendConfigure (env : RendEnv) (st : RendState) (pic : RendPicture)
    (orientation : Nat) : Bool × RendState :=
  let st := { st with m_format := pic.format, m_sourceWidth := pic.iWidth,
                      m_sourceHeight := pic.iHeight, m_renderOrientation := orientation }
  let st := (rendFlush st false).1
  if env.hasWinSystem = false then (false, st)
  else if env.isEGLWinSystem = false then (false, st)
  else
    let st := { st with m_buffers := st.m_buffers.map (fun (buf : Slot) =>
      if buf.fenceObj = false then { buf with fenceObj := true } else buf) }
    (true, { st with m_configured := true })

/-- `CRendererDRMPRIMEGLES::AddVideoPicture`: when the target slot still
holds a buffer, log the anomaly, destroy its fence, unmap its texture and
release the old reference; then install the picture buffer with an added
reference and capture its colour parameters, defaulting an unspecified
colour space by the dimension heuristic. -/
def AddVideoPicture (st : RendState) (pic : RendPicture) (index : Nat) :
    RendState × List RendEvent :=
  let buf := st.m_buffers.getD index default
  let anomaly : List RendEvent × (Nat → Nat) × Slot :=
    match buf.videoBuffer with
    | some old =>
      (RendEvent.logUnreleased ::
        (if buf.fenceObj then [RendEvent.destroyFenceEv] else []) ++
          [RendEvent.unmapTexture, RendEvent.releaseRef old],
       decRef st.refCounts old,
       { buf with fence := if buf.fenceObj then none else buf.fence,
                  texMapped := false, videoBuffer := none })
    | none => ([], st.refCounts, buf)
  let buf := anomaly.2.2
  let colSpace :=
    if pic.color_space = AVCOL_SPC_UNSPECIFIED then
      if 1024 < pic.iWidth ∨ 600 ≤ pic.iHeight then AVCOL_SPC_BT709 else AVCOL_SPC_BT470BG
    else pic.color_space
  let buf := { buf with videoBuffer := some pic.videoBuffer,
                        m_srcPrimaries := pic.color_primaries,
                        m_srcColSpace := colSpace,
                        m_srcFullRange := pic.color_range = 1,
                        m_srcBits := pic.colorBits }
  ({ st with m_buffers := st.m_buffers.set index buf,
             refCounts := incRef anomaly.2.1 pic.videoBuffer },
   anomaly.1 ++ [RendEvent.acquireRef pic.videoBuffer])

/-- `CEGLFence::IsSignaled` on the modelled sync state.  Modelled from the
spec for the no-sync case: a destroyed or never-created fence imposes no
backpressure (teardown paths must be pure no-ops), so it reports
signalled. -/
def fenceSignaled : Option Bool → Bool
  | none => true
  | some s => s

/-- `CRendererDRMPRIMEGLES::NeedBuffer`: the slot is still needed exactly
while its fence is not signalled. -/
def NeedBuffer (st : RendState) (index : Nat) : Bool :=
  !(fenceSignaled (st.m_buffers.getD index default).fence)

/-- `CRendererDRMPRIMEGLES::RenderUpdate`: no-op when unconfigured; skip
the frame when the slot buffer is missing or invalid or its texture fails
to map or there is no render system; otherwise draw and record a fresh
(unsignalled) fence for the slot. -/
def RenderUpdate (env : RendEnv) (st : RendState) (index : Nat) :
    RendState × List RendEvent :=
  if st.m_configured = false then (st, [])
  else
    let buf := st.m_buffers.getD index default
    match buf.videoBuffer with
    | none => (st, [])
    | some b =>
      if env.bufferValid b = false then (st, [])
      else if env.textureMapOk b = false then (st, [RendEvent.mapTexture b false])
      else
        let buf := { buf with texMapped := true }
        if env.hasRenderSystem = false then
          ({ st with m_buffers := st.m_buffers.set index buf },
           [RendEvent.mapTexture b true])
        else
          let buf := { buf with fence := some false }
          ({ st with m_buffers := st.m_buffers.set index buf },
           [RendEvent.mapTexture b true, RendEvent.draw, RendEvent.createFenceEv])

/-- External fence-signal event: the GPU finishes sampling the slot and the
EGL sync becomes signalled. -/
def signalFence (st : RendState) (index : Nat) : RendState :=
  let buf := st.m_buffers.getD index default
  match buf.fence with
  | some _ => { st with m_buffers := st.m_buffers.set index { buf with fence := some true } }
  | none => st

/-! ### Concrete fixtures used by witnesses and counterexamples -/

/-- A two-layer NV12-shaped descriptor over two dma-buf objects. -/
def descNV : FrameDescriptor :=
  { objects := [⟨30, 0⟩, ⟨31, 0⟩],
    layers := [⟨DRM_FORMAT_R8, [⟨0, 128, 0⟩]⟩, ⟨DRM_FORMAT_GR88, [⟨1, 128, 0⟩]⟩] }

/-- A fresh, unmapped decoder buffer holding `descNV`. -/
def baseBuf : PrimeBuffer :=
  { refCount := 1, m_fb_id := 0, m_handles := [0, 0, 0, 0], descRefs := 0,
    descriptor := descNV, acquireDescOk := true, width := 1920, height := 1080 }

/-- A bridge holding no buffers, with an empty blob table. -/
def st0 : BridgeState :=
  { buffers := fun _ => baseBuf, m_buffer := none, m_prev_buffer := none,
    m_hdr_blob_id := 0, liveBlobs := [], nextBlobId := 1 }

/-- A DRM environment where every conversion succeeds. -/
def envOk : DrmEnv :=
  { fd2handle := fun fd => some (fd + 100), addFBId := some 7, crtcId := 5 }

/-! ### Helper lemmas on the bridge operations -/

theorem updateBuf_same (bs : Nat → PrimeBuffer) (i : Nat) (b : PrimeBuffer) :
    updateBuf bs i b i = b := by
  simp [updateBuf]

theorem updateBuf_ne (bs : Nat → PrimeBuffer) (i : Nat) (b : PrimeBuffer) (j : Nat)
    (h : j ≠ i) : updateBuf bs i b j = bs j := by
  simp [updateBuf, h]

theorem unmap_m_buffer (st : BridgeState) (bid : Nat) :
    (Unmap st bid).1.m_buffer = st.m_buffer := rfl

theorem unmap_m_prev_buffer (st : BridgeState) (bid : Nat) :
    (Unmap st bid).1.m_prev_buffer = st.m_prev_buffer := rfl

theorem unmap_refCount (st : BridgeState) (bid j : Nat) :
    ((Unmap st bid).1.buffers j).refCount = (st.buffers j).refCount := by
  simp only [Unmap, updateBuf]
  by_cases h : j = bid <;> simp [h]

theorem releaseB_m_buffer (st : BridgeState) (ob : Option Nat) :
    (ReleaseB st ob).1.m_buffer = st.m_buffer := by
  cases ob <;> rfl

theorem releaseB_m_prev_buffer (st : BridgeState) (ob : Option Nat) :
    (ReleaseB st ob).1.m_prev_buffer = st.m_prev_buffer := by
  cases ob <;> rfl

theorem releaseB_refCount_ne (st : BridgeState) (ob : Option Nat) (j : Nat)
    (h : ob ≠ some j) :
    ((ReleaseB st ob).1.buffers j).refCount = (st.buffers j).refCount := by
  cases ob with
  | none => rfl
  | some bid =>
    have hj : j ≠ bid := by rintro rfl; exact h rfl
    simp only [ReleaseB, updateBuf_ne _ _ _ _ hj]
    exact unmap_refCount st bid j

theorem releaseB_refCount_eq (st : BridgeState) (bid : Nat) :
    ((ReleaseB st (some bid)).1.buffers bid).refCount = (st.buffers bid).refCount - 1 := by
  simp only [ReleaseB, updateBuf_same]
  rw [unmap_refCount]

theorem acquire_m_buffer (st : BridgeState) (bid : Nat) :
    (Acquire st bid).1.m_buffer = some bid := rfl

theorem acquire_m_prev_buffer (st : BridgeState) (bid : Nat) :
    (Acquire st bid).1.m_prev_buffer = st.m_buffer := by
  simp only [Acquire]
  exact releaseB_m_buffer st st.m_prev_buffer

theorem acquire_refCount_self (st : BridgeState) (bid : Nat)
    (h : st.m_prev_buffer ≠ some bid) :
    ((Acquire st bid).1.buffers bid).refCount = (st.buffers bid).refCount + 1 := by
  simp only [Acquire, updateBuf_same]
  rw [releaseB_refCount_ne st _ bid h]

theorem acquire_refCount_other (st : BridgeState) (bid j : Nat) (h1 : j ≠ bid)
    (h2 : st.m_prev_buffer ≠ some j) :
    ((Acquire st bid).1.buffers j).refCount = (st.buffers j).refCount := by
  simp only [Acquire, updateBuf_ne _ _ _ _ h1]
  exact releaseB_refCount_ne st _ j h2

theorem acquire_refCount_prev (st : BridgeState) (bid p : Nat)
    (h : st.m_prev_buffer = some p) (hp : p ≠ bid) :
    ((Acquire st bid).1.buffers p).refCount = (st.buffers p).refCount - 1 := by
  simp only [Acquire, updateBuf_ne _ _ _ _ hp]
  rw [h]
  exact releaseB_refCount_eq st p

theorem acquire_events (st : BridgeState) (bid : Nat) :
    (Acquire st bid).2 = (ReleaseB st st.m_prev_buffer).2 ++ [BridgeEvent.acquireRef bid] :=
  rfl

theorem releaseB_events_some (st : BridgeState) (bid : Nat) :
    (ReleaseB st (some bid)).2 = (Unmap st bid).2 ++ [BridgeEvent.releaseRef bid] := rfl

/-! ### C1 -/

/-- C1: a sequence Acquire(b1), Acquire(b2), Acquire(b3) on three distinct
buffers (distinct from the buffers the bridge already holds) leaves b2 as
previous and b3 as current, each with one Bridge-added reference, and b1
back at its pre-sequence reference count; each Acquire shifts current into
previous and references the new buffer, and the third call releases b1. -/
theorem acquire_fifo_depth2_c1 (st : BridgeState) (b1 b2 b3 : Nat)
    (h12 : b1 ≠ b2) (h13 : b1 ≠ b3) (h23 : b2 ≠ b3)
    (hc1 : st.m_buffer ≠ some b1) (hc2 : st.m_buffer ≠ some b2)
    (hc3 : st.m_buffer ≠ some b3)
    (hp1 : st.m_prev_buffer ≠ some b1) (hp2 : st.m_prev_buffer ≠ some b2)
    (hp3 : st.m_prev_buffer ≠ some b3) :
    (((Acquire (Acquire (Acquire st b1).1 b2).1 b3).1.m_buffer = some b3) ∧
      ((Acquire (Acquire (Acquire st b1).1 b2).1 b3).1.m_prev_buffer = some b2)) ∧
    (((Acquire (Acquire (Acquire st b1).1 b2).1 b3).1.buffers b1).refCount =
        (st.buffers b1).refCount ∧
      ((Acquire (Acquire (Acquire st b1).1 b2).1 b3).1.buffers b2).refCount =
        (st.buffers b2).refCount + 1 ∧
      ((Acquire (Acquire (Acquire st b1).1 b2).1 b3).1.buffers b3).refCount =
        (st.buffers b3).refCount + 1) ∧
    ((Acquire st b1).1.m_buffer = some b1 ∧
      (Acquire st b1).1.m_prev_buffer = st.m_buffer ∧
      (Acquire (Acquire st b1).1 b2).1.m_buffer = some b2 ∧
      (Acquire (Acquire st b1).1 b2).1.m_prev_buffer = some b1 ∧
      BridgeEvent.releaseRef b1 ∈ (Acquire (Acquire (Acquire st b1).1 b2).1 b3).2) := by
  have e1b : (Acquire st b1).1.m_buffer = some b1 := acquire_m_buffer st b1
  have e1p : (Acquire st b1).1.m_prev_buffer = st.m_buffer := acquire_m_prev_buffer st b1
  have e2b : (Acquire (Acquire st b1).1 b2).1.m_buffer = some b2 := acquire_m_buffer _ b2
  have e2p : (Acquire (Acquire st b1).1 b2).1.m_prev_buffer = some b1 := by
    rw [acquire_m_prev_buffer, e1b]
  have e3b : (Acquire (Acquire (Acquire st b1).1 b2).1 b3).1.m_buffer = some b3 :=
    acquire_m_buffer _ b3
  have e3p : (Acquire (Acquire (Acquire st b1).1 b2).1 b3).1.m_prev_buffer = some b2 := by
    rw [acquire_m_prev_buffer, e2b]
  -- reference counts after the first call
  have r1b1 : (((Acquire st b1).1).buffers b1).refCount = (st.buffers b1).refCount + 1 :=
    acquire_refCount_self st b1 hp1
  have r1b2 : (((Acquire st b1).1).buffers b2).refCount = (st.buffers b2).refCount :=
    acquire_refCount_other st b1 b2 (Ne.symm h12) hp2
  have r1b3 : (((Acquire st b1).1).buffers b3).refCount = (st.buffers b3).refCount :=
    acquire_refCount_other st b1 b3 (Ne.symm h13) hp3
  -- after the second call: previous of st1 is st.m_buffer
  have p1ne1 : (Acquire st b1).1.m_prev_buffer ≠ some b1 := by rw [e1p]; exact hc1
  have p1ne2 : (Acquire st b1).1.m_prev_buffer ≠ some b2 := by rw [e1p]; exact hc2
  have p1ne3 : (Acquire st b1).1.m_prev_buffer ≠ some b3 := by rw [e1p]; exact hc3
  have r2b1 : ((Acquire (Acquire st b1).1 b2).1.buffers b1).refCount =
      (st.buffers b1).refCount + 1 := by
    rw [acquire_refCount_other _ b2 b1 h12 p1ne1, r1b1]
  have r2b2 : ((Acquire (Acquire st b1).1 b2).1.buffers b2).refCount =
      (st.buffers b2).refCount + 1 := by
    rw [acquire_refCount_self _ b2 p1ne2, r1b2]
  have r2b3 : ((Acquire (Acquire st b1).1 b2).1.buffers b3).refCount =
      (st.buffers b3).refCount := by
    rw [acquire_refCount_other _ b2 b3 (Ne.symm h23) p1ne3, r1b3]
  -- the third call releases b1 (the previous of st2)
  have r3b1 : ((Acquire (Acquire (Acquire st b1).1 b2).1 b3).1.buffers b1).refCount =
      (st.buffers b1).refCount := by
    rw [acquire_refCount_prev _ b3 b1 e2p h13, r2b1]
    omega
  have r3b2 : ((Acquire (Acquire (Acquire st b1).1 b2).1 b3).1.buffers b2).refCount =
      (st.buffers b2).refCount + 1 := by
    have : (Acquire (Acquire st b1).1 b2).1.m_prev_buffer ≠ some b2 := by
      rw [e2p]; exact fun hh => h12 (Option.some.inj hh)
    rw [acquire_refCount_other _ b3 b2 h23 this, r2b2]
  have r3b3 : ((Acquire (Acquire (Acquire st b1).1 b2).1 b3).1.buffers b3).refCount =
      (st.buffers b3).refCount + 1 := by
    have : (Acquire (Acquire st b1).1 b2).1.m_prev_buffer ≠ some b3 := by
      rw [e2p]; exact fun hh => h13 (Option.some.inj hh)
    rw [acquire_refCount_self _ b3 this, r2b3]
  have rel : BridgeEvent.releaseRef b1 ∈ (Acquire (Acquire (Acquire st b1).1 b2).1 b3).2 := by
    rw [acquire_events, e2p, releaseB_events_some]
    simp
  exact ⟨⟨e3b, e3p⟩, ⟨r3b1, r3b2, r3b3⟩, e1b, e1p, e2b, e2p, rel⟩

/-- C1 witness: the sequence Acquire 1, Acquire 2, Acquire 3 on the empty
bridge `st0`. -/
theorem acquire_fifo_depth2_c1_w :
    (((Acquire (Acquire (Acquire st0 1).1 2).1 3).1.m_buffer = some 3) ∧
      ((Acquire (Acquire (Acquire st0 1).1 2).1 3).1.m_prev_buffer = some 2)) ∧
    (((Acquire (Acquire (Acquire st0 1).1 2).1 3).1.buffers 1).refCount =
        (st0.buffers 1).refCount ∧
      ((Acquire (Acquire (Acquire st0 1).1 2).1 3).1.buffers 2).refCount =
        (st0.buffers 2).refCount + 1 ∧
      ((Acquire (Acquire (Acquire st0 1).1 2).1 3).1.buffers 3).refCount =
        (st0.buffers 3).refCount + 1) ∧
    ((Acquire st0 1).1.m_buffer = some 1 ∧
      (Acquire st0 1).1.m_prev_buffer = st0.m_buffer ∧
      (Acquire (Acquire st0 1).1 2).1.m_buffer = some 2 ∧
      (Acquire (Acquire st0 1).1 2).1.m_prev_buffer = some 1 ∧
      BridgeEvent.releaseRef 1 ∈ (Acquire (Acquire (Acquire st0 1).1 2).1 3).2) :=
  acquire_fifo_depth2_c1 st0 1 2 3 (by decide) (by decide) (by decide)
    (by decide) (by decide) (by decide) (by decide) (by decide) (by decide)

/-! ### Renderer fixtures and slot-list helpers -/

theorem getD_set_self {α : Type} [Inhabited α] (l : List α) (i : Nat) (a : α)
    (h : i < l.length) : (l.set i a).getD i default = a := by
  rw [List.getD_eq_getElem?_getD, List.getElem?_set_eq_of_lt a h]
  rfl

theorem getD_set_ne {α : Type} [Inhabited α] (l : List α) (i j : Nat) (a : α)
    (h : j ≠ i) : (l.set i a).getD j default = l.getD j default := by
  rw [List.getD_eq_getElem?_getD, List.getElem?_set_ne (by omega),
    List.getD_eq_getElem?_getD]

/-- A configured slot holding decoder buffer 1 with no live sync. -/
def slotCfg : Slot :=
  { videoBuffer := some 1, fenceObj := true, fence := none, texMapped := false,
    m_srcPrimaries := 1, m_srcColSpace := 1, m_srcFullRange := false, m_srcBits := 8 }

/-- A configured renderer with buffer 1 submitted into slot 0. -/
def rst0 : RendState :=
  { refCounts := fun _ => 2, m_buffers := [slotCfg, default, default, default],
    m_configured := true, m_format := 0, m_sourceWidth := 1920, m_sourceHeight := 1080,
    m_renderOrientation := 0 }

/-- A renderer environment where every external service is available. -/
def renvOk : RendEnv :=
  { hasWinSystem := true, isEGLWinSystem := true, hasRenderSystem := true,
    bufferValid := fun _ => true, textureMapOk := fun _ => true }

/-! ### C2 -/

/-- C2 counterexample: on a configured renderer with buffer 1 in slot 0,
`RenderUpdate` records a fresh unsignalled fence for slot 0, and
immediately afterwards `NeedBuffer 0` returns true (the code returns the
negation of IsSignaled), not false as the claim states. -/
theorem needbuffer_after_render_c2_cex :
    ((RenderUpdate renvOk rst0 0).1.m_buffers.getD 0 default).fence = some false ∧
    NeedBuffer (RenderUpdate renvOk rst0 0).1 0 = true := by
  decide

/-- C2 amended: immediately after `RenderUpdate` records a fresh fence for
a slot, `NeedBuffer` on that slot returns true (the slot is still in
flight), it returns false after the fence is externally signalled, and it
never reports false while a fence is recorded but unsignalled. -/
theorem needbuffer_fence_c2 (env : RendEnv) (st : RendState) (index b : Nat)
    (hcfg : st.m_configured = true)
    (hbuf : (st.m_buffers.getD index default).videoBuffer = some b)
    (hval : env.bufferValid b = true) (hmap : env.textureMapOk b = true)
    (hrs : env.hasRenderSystem = true) (hidx : index < st.m_buffers.length) :
    ((RenderUpdate env st index).1.m_buffers.getD index default).fence = some false ∧
    NeedBuffer (RenderUpdate env st index).1 index = true ∧
    NeedBuffer (signalFence (RenderUpdate env st index).1 index) index = false ∧
    (∀ s : RendState, ∀ i : Nat,
      (s.m_buffers.getD i default).fence = some false → NeedBuffer s i = true) := by
  have hfence : ((RenderUpdate env st index).1.m_buffers.getD index default).fence =
      some false := by
    simp only [RenderUpdate, hcfg, hbuf, hval, hmap, hrs]
    simp only [Bool.true_eq_false, if_false]
    rw [getD_set_self _ _ _ hidx]
  have hlen : index < (RenderUpdate env st index).1.m_buffers.length := by
    simp only [RenderUpdate, hcfg, hbuf, hval, hmap, hrs]
    simp only [Bool.true_eq_false, if_false]
    simpa using hidx
  refine ⟨hfence, ?_, ?_, ?_⟩
  · unfold NeedBuffer
    rw [hfence]
    rfl
  · simp only [signalFence, hfence, NeedBuffer]
    rw [getD_set_self _ _ _ hlen]
    rfl
  · intro s i h
    unfold NeedBuffer
    rw [h]
    rfl

/-- C2 witness for the amended theorem, at the concrete configured
renderer. -/
theorem needbuffer_fence_c2_w :
    ((RenderUpdate renvOk rst0 0).1.m_buffers.getD 0 default).fence = some false ∧
    NeedBuffer (RenderUpdate renvOk rst0 0).1 0 = true ∧
    NeedBuffer (signalFence (RenderUpdate renvOk rst0 0).1 0) 0 = false ∧
    (∀ s : RendState, ∀ i : Nat,
      (s.m_buffers.getD i default).fence = some false → NeedBuffer s i = true) :=
  needbuffer_fence_c2 renvOk rst0 0 1 (by decide) (by decide) (by decide) (by decide)
    (by decide) (by decide)

/-! ### Helper lemmas on Map and Unmap -/

theorem closeHandles_fst (hs : List Nat) :
    (closeHandles hs).1 = List.replicate hs.length 0 := by
  induction hs with
  | nil => rfl
  | cons h t ih =>
    simp only [closeHandles]
    split <;> simp [ih, List.replicate_succ]

theorem fdConvert_length (env : DrmEnv) (objs : List ObjectDesc) :
    ∀ (idx : Nat) (hs : List Nat), ((fdConvert env objs idx hs).2.1).length = hs.length := by
  induction objs with
  | nil => intro idx hs; rfl
  | cons o rest ih =>
    intro idx hs
    unfold fdConvert
    cases henv : env.fd2handle o.fd with
    | none => rfl
    | some h =>
      simp only []
      rw [ih (idx + 1) (hs.set idx h), List.length_set]

theorem unmap_handles_eq (st : BridgeState) (bid : Nat) :
    ((Unmap st bid).1.buffers bid).m_handles =
      List.replicate (st.buffers bid).m_handles.length 0 := by
  simp only [Unmap, updateBuf_same]
  exact closeHandles_fst _

theorem unmap_fb_eq (st : BridgeState) (bid : Nat) :
    ((Unmap st bid).1.buffers bid).m_fb_id = 0 := by
  simp only [Unmap, updateBuf_same]

theorem unmap_handles_length (st : BridgeState) (bid j : Nat) :
    ((Unmap st bid).1.buffers j).m_handles.length = (st.buffers j).m_handles.length := by
  simp only [Unmap, updateBuf]
  by_cases h : j = bid <;> simp [h, closeHandles_fst]

theorem unmap_fb_ne (st : BridgeState) (bid j : Nat) (h : j ≠ bid) :
    ((Unmap st bid).1.buffers j).m_fb_id = (st.buffers j).m_fb_id := by
  simp only [Unmap, updateBuf_ne _ _ _ _ h]

theorem updateBuf_handles_length (bs : Nat → PrimeBuffer) (i : Nat) (b : PrimeBuffer)
    (j : Nat) (hb : b.m_handles.length = (bs i).m_handles.length) :
    (updateBuf bs i b j).m_handles.length = (bs j).m_handles.length := by
  unfold updateBuf
  split
  · next h => rw [h]; exact hb
  · rfl

theorem releaseB_handles_length (st : BridgeState) (ob : Option Nat) (j : Nat) :
    ((ReleaseB st ob).1.buffers j).m_handles.length = (st.buffers j).m_handles.length := by
  cases ob with
  | none => rfl
  | some bid =>
    simp only [ReleaseB]
    rw [updateBuf_handles_length _ _ _ _ (by rfl)]
    exact unmap_handles_length st bid j

theorem releaseB_fb_ne (st : BridgeState) (ob : Option Nat) (j : Nat) (h : ob ≠ some j) :
    ((ReleaseB st ob).1.buffers j).m_fb_id = (st.buffers j).m_fb_id := by
  cases ob with
  | none => rfl
  | some bid =>
    have hj : j ≠ bid := by rintro rfl; exact h rfl
    simp only [ReleaseB, updateBuf_ne _ _ _ _ hj]
    exact unmap_fb_ne st bid j hj

theorem acquire_handles_length (st : BridgeState) (bid j : Nat) :
    ((Acquire st bid).1.buffers j).m_handles.length = (st.buffers j).m_handles.length := by
  simp only [Acquire]
  rw [updateBuf_handles_length _ _ _ _ (by rfl)]
  exact releaseB_handles_length st _ j

theorem acquire_fb (st : BridgeState) (bid : Nat) (h : st.m_prev_buffer ≠ some bid) :
    ((Acquire st bid).1.buffers bid).m_fb_id = (st.buffers bid).m_fb_id := by
  simp only [Acquire, updateBuf_same]
  exact releaseB_fb_ne st _ bid h

/-- A `MapB` call on a buffer that already carries a framebuffer id is an
immediate silent success. -/
theorem mapB_mapped (env : DrmEnv) (st : BridgeState) (bid : Nat)
    (h : (st.buffers bid).m_fb_id ≠ 0) : MapB env st bid = (true, st, []) := by
  simp [MapB, h]

theorem mapB_handles_length (env : DrmEnv) (st : BridgeState) (bid j : Nat) :
    ((MapB env st bid).2.1.buffers j).m_handles.length =
      (st.buffers j).m_handles.length := by
  by_cases hfb : (st.buffers bid).m_fb_id ≠ 0
  · rw [mapB_mapped env st bid hfb]
  · by_cases hdesc : (st.buffers bid).acquireDescOk = false
    · simp [MapB, hfb, hdesc]
    · by_cases hconv : (fdConvert env (st.buffers bid).descriptor.objects 0
          (st.buffers bid).m_handles).1 = false
      · simp only [MapB, if_neg hfb, if_neg hdesc, if_pos hconv]
        rw [updateBuf_handles_length _ _ _ _ (by exact fdConvert_length env _ 0 _)]
      · cases haddfb : env.addFBId with
        | none =>
          simp only [MapB, if_neg hfb, if_neg hdesc, if_neg hconv, haddfb]
          rw [updateBuf_handles_length _ _ _ _ (by exact fdConvert_length env _ 0 _)]
        | some fb =>
          simp only [MapB, if_neg hfb, if_neg hdesc, if_neg hconv, haddfb]
          rw [acquire_handles_length]
          dsimp only
          rw [updateBuf_handles_length _ _ _ _ (by rw [updateBuf_same])]
          rw [updateBuf_handles_length _ _ _ _ (by exact fdConvert_length env _ 0 _)]

/-- Recognizer for framebuffer-creation calls in a bridge trace. -/
def isAddFB : BridgeEvent → Bool
  | BridgeEvent.addFB _ _ _ => true
  | _ => false

theorem closeHandles_no_addFB (hs : List Nat) :
    (closeHandles hs).2.countP isAddFB = 0 := by
  induction hs with
  | nil => rfl
  | cons h t ih =>
    simp only [closeHandles]
    split <;> simp [List.countP_cons, ih, isAddFB]

theorem unmap_no_addFB (st : BridgeState) (bid : Nat) :
    (Unmap st bid).2.countP isAddFB = 0 := by
  simp only [Unmap]
  split <;>
    simp [List.countP_append, List.countP_cons, closeHandles_no_addFB, isAddFB]

theorem releaseB_no_addFB (st : BridgeState) (ob : Option Nat) :
    (ReleaseB st ob).2.countP isAddFB = 0 := by
  cases ob with
  | none => rfl
  | some bid =>
    simp [ReleaseB, List.countP_append, List.countP_cons, unmap_no_addFB, isAddFB]

theorem acquire_no_addFB (st : BridgeState) (bid : Nat) :
    (Acquire st bid).2.countP isAddFB = 0 := by
  simp [Acquire, List.countP_append, List.countP_cons, releaseB_no_addFB, isAddFB]

theorem fdConvert_no_addFB (env : DrmEnv) (objs : List ObjectDesc) :
    ∀ (idx : Nat) (hs : List Nat), ((fdConvert env objs idx hs).2.2).countP isAddFB = 0 := by
  induction objs with
  | nil => intro idx hs; rfl
  | cons o rest ih =>
    intro idx hs
    unfold fdConvert
    cases henv : env.fd2handle o.fd with
    | none => simp [List.countP_cons, isAddFB]
    | some h => simp [List.countP_cons, isAddFB, ih]

/-- The bridge state after the descriptor-acquire, fd-conversion and
framebuffer-creation steps of a fresh successful `Map`, just before the
final `Acquire`. -/
def mapMid (env : DrmEnv) (st : BridgeState) (bid fb : Nat) : BridgeState :=
  let b := st.buffers bid
  let b1 := { b with descRefs := b.descRefs + 1,
                     m_handles := (fdConvert env b.descriptor.objects 0 b.m_handles).2.1 }
  { st with buffers := updateBuf (updateBuf st.buffers bid b1) bid { b1 with m_fb_id := fb } }

/-- Branch lemma: a fresh `Map` whose descriptor acquisition, fd
conversions and framebuffer creation all succeed returns true, ends with
`Acquire`, and emits the conversion trace followed by the creation call
carrying the inferred format and flags. -/
theorem mapB_fresh_success (env : DrmEnv) (st : BridgeState) (bid : Nat)
    (hfb : ¬(st.buffers bid).m_fb_id ≠ 0)
    (hdesc : ¬(st.buffers bid).acquireDescOk = false)
    (hconv : ¬(fdConvert env (st.buffers bid).descriptor.objects 0
        (st.buffers bid).m_handles).1 = false)
    (fb : Nat) (haddfb : env.addFBId = some fb) :
    MapB env st bid = (true, (Acquire (mapMid env st bid fb) bid).1,
      BridgeEvent.acquireDesc ::
        (fdConvert env (st.buffers bid).descriptor.objects 0
            (st.buffers bid).m_handles).2.2 ++
          [BridgeEvent.addFB true (inferFormat (st.buffers bid).descriptor)
              (fbFlags (fillArrays (st.buffers bid).descriptor
                  (fdConvert env (st.buffers bid).descriptor.objects 0
                      (st.buffers bid).m_handles).2.1).modifier)] ++
        (Acquire (mapMid env st bid fb) bid).2) := by
  simp only [MapB, if_neg hfb, if_neg hdesc, if_neg hconv, haddfb]
  rfl

theorem mapMid_fb (env : DrmEnv) (st : BridgeState) (bid fb : Nat) :
    ((mapMid env st bid fb).buffers bid).m_fb_id = fb := by
  simp [mapMid, updateBuf_same]

theorem mapMid_m_prev_buffer (env : DrmEnv) (st : BridgeState) (bid fb : Nat) :
    (mapMid env st bid fb).m_prev_buffer = st.m_prev_buffer := rfl

/-! ### C5 -/

/-- C5: `Map` is idempotent.  On any buffer with a live framebuffer id a
`Map` call returns true immediately with no state change and no external
call; after a fresh successful `Map` the second call is such an immediate
no-op, and the two calls together issue exactly one framebuffer-creation
call. -/
theorem map_idempotent_c5 (env : DrmEnv) (st st2 : BridgeState) (bid : Nat)
    (hfb0 : (st.buffers bid).m_fb_id = 0)
    (hok : (MapB env st bid).1 = true)
    (hprev : st.m_prev_buffer ≠ some bid)
    (hfbnz : ∀ v, env.addFBId = some v → v ≠ 0)
    (h2 : (st2.buffers bid).m_fb_id ≠ 0) :
    MapB env st2 bid = (true, st2, []) ∧
    MapB env (MapB env st bid).2.1 bid = (true, (MapB env st bid).2.1, []) ∧
    ((MapB env st bid).2.2 ++
        (MapB env (MapB env st bid).2.1 bid).2.2).countP isAddFB = 1 := by
  have hfb : ¬(st.buffers bid).m_fb_id ≠ 0 := by simp [hfb0]
  by_cases hdesc : (st.buffers bid).acquireDescOk = false
  · simp only [MapB, if_neg hfb, if_pos hdesc] at hok
    exact Bool.noConfusion hok
  · by_cases hconv : (fdConvert env (st.buffers bid).descriptor.objects 0
        (st.buffers bid).m_handles).1 = false
    · simp only [MapB, if_neg hfb, if_neg hdesc, if_pos hconv] at hok
      exact Bool.noConfusion hok
    · cases haddfb : env.addFBId with
      | none =>
        simp only [MapB, if_neg hfb, if_neg hdesc, if_neg hconv, haddfb] at hok
        exact Bool.noConfusion hok
      | some fb =>
        have heq := mapB_fresh_success env st bid hfb hdesc hconv fb haddfb
        have hfb1 : ((MapB env st bid).2.1.buffers bid).m_fb_id ≠ 0 := by
          rw [heq]
          dsimp only
          rw [acquire_fb _ _ (by exact hprev), mapMid_fb]
          exact hfbnz fb haddfb
        refine ⟨mapB_mapped env st2 bid h2, mapB_mapped env _ bid hfb1, ?_⟩
        rw [mapB_mapped env _ bid hfb1, heq]
        dsimp only
        rw [List.append_nil]
        simp [List.countP_append, List.countP_cons, isAddFB,
          fdConvert_no_addFB, acquire_no_addFB]

/-- C5 witness: buffer 1 in the empty bridge under the all-success
environment; the second Map call is an immediate no-op and exactly one
framebuffer-creation call is issued in total. -/
theorem map_idempotent_c5_w :
    MapB envOk (MapB envOk st0 1).2.1 1 = (true, (MapB envOk st0 1).2.1, []) ∧
    MapB envOk (MapB envOk st0 1).2.1 1 = (true, (MapB envOk st0 1).2.1, []) ∧
    ((MapB envOk st0 1).2.2 ++
        (MapB envOk (MapB envOk st0 1).2.1 1).2.2).countP isAddFB = 1 :=
  map_idempotent_c5 envOk st0 (MapB envOk st0 1).2.1 1 (by decide) (by decide)
    (by decide) (by intro v hv; injection hv with h; omega) (by decide)

/-! ### C6 -/

/-- C6: `Unmap` after any `Map` leaves the buffer with all four handle
slots zero and a zero framebuffer id and releases the hardware descriptor;
on an already-unmapped buffer `Unmap` performs no framebuffer-removal and
no handle-close call (its trace is only the descriptor release). -/
theorem unmap_after_map_c6 (env : DrmEnv) (st : BridgeState) (bid : Nat)
    (h4 : (st.buffers bid).m_handles.length = 4) :
    (((Unmap (MapB env st bid).2.1 bid).1.buffers bid).m_handles = [0, 0, 0, 0] ∧
      ((Unmap (MapB env st bid).2.1 bid).1.buffers bid).m_fb_id = 0 ∧
      BridgeEvent.releaseDesc ∈ (Unmap (MapB env st bid).2.1 bid).2) ∧
    ((st.buffers bid).m_fb_id = 0 → (st.buffers bid).m_handles = [0, 0, 0, 0] →
      (Unmap st bid).2 = [BridgeEvent.releaseDesc]) := by
  refine ⟨⟨?_, unmap_fb_eq _ bid, ?_⟩, ?_⟩
  · rw [unmap_handles_eq, mapB_handles_length, h4]
    rfl
  · simp only [Unmap]
    split <;> simp
  · intro hfb hh
    simp only [Unmap, hh, hfb]
    rfl

/-- C6 witness: mapping then unmapping buffer 1 of the empty bridge, and
the no-op second Unmap. -/
theorem unmap_after_map_c6_w :
    (((Unmap (MapB envOk st0 1).2.1 1).1.buffers 1).m_handles = [0, 0, 0, 0] ∧
      ((Unmap (MapB envOk st0 1).2.1 1).1.buffers 1).m_fb_id = 0 ∧
      BridgeEvent.releaseDesc ∈ (Unmap (MapB envOk st0 1).2.1 1).2) ∧
    ((st0.buffers 1).m_fb_id = 0 → (st0.buffers 1).m_handles = [0, 0, 0, 0] →
      (Unmap st0 1).2 = [BridgeEvent.releaseDesc]) :=
  unmap_after_map_c6 envOk st0 1 (by decide)

/-! ### C8 -/

/-- C8: on a mapped buffer, `SetVideoPlane` stages the framebuffer and
crtc ids, the full-buffer source rectangle in 16.16 fixed point, CRTC_X/Y
as x1/y1 rounded down to the nearest even integer (`evenFloor`) and
CRTC_W/H as width/height rounded up to the nearest even integer
(`evenCeil`); `evenFloor`/`evenCeil` are exactly those roundings. -/
theorem set_video_plane_staging_c8 (env : DrmEnv) (st : BridgeState) (bid : Nat)
    (r : CRect) (hfb : (st.buffers bid).m_fb_id ≠ 0) :
    (SetVideoPlane env st bid r).2 =
      [BridgeEvent.stageProp PName.FB_ID ((st.buffers bid).m_fb_id : Int),
       BridgeEvent.stageProp PName.CRTC_ID (env.crtcId : Int),
       BridgeEvent.stageProp PName.SRC_X 0,
       BridgeEvent.stageProp PName.SRC_Y 0,
       BridgeEvent.stageProp PName.SRC_W (((st.buffers bid).width <<< 16 : Nat) : Int),
       BridgeEvent.stageProp PName.SRC_H (((st.buffers bid).height <<< 16 : Nat) : Int),
       BridgeEvent.stageProp PName.CRTC_X (evenFloor r.x1),
       BridgeEvent.stageProp PName.CRTC_Y (evenFloor r.y1),
       BridgeEvent.stageProp PName.CRTC_W ((evenCeil (r.x2 - r.x1).toNat : Nat) : Int),
       BridgeEvent.stageProp PName.CRTC_H ((evenCeil (r.y2 - r.y1).toNat : Nat) : Int)] ∧
    (evenFloor r.x1 % 2 = 0 ∧ evenFloor r.x1 ≤ r.x1 ∧ r.x1 < evenFloor r.x1 + 2 ∧
      evenFloor r.y1 % 2 = 0 ∧ evenFloor r.y1 ≤ r.y1 ∧ r.y1 < evenFloor r.y1 + 2) ∧
    (evenCeil (r.x2 - r.x1).toNat % 2 = 0 ∧
      (r.x2 - r.x1).toNat ≤ evenCeil (r.x2 - r.x1).toNat ∧
      evenCeil (r.x2 - r.x1).toNat < (r.x2 - r.x1).toNat + 2 ∧
      evenCeil (r.y2 - r.y1).toNat % 2 = 0 ∧
      (r.y2 - r.y1).toNat ≤ evenCeil (r.y2 - r.y1).toNat ∧
      evenCeil (r.y2 - r.y1).toNat < (r.y2 - r.y1).toNat + 2) := by
  refine ⟨?_, ?_, ?_⟩
  · simp [SetVideoPlane, mapB_mapped env st bid hfb]
  · unfold evenFloor
    omega
  · unfold evenCeil
    omega

/-- C8 witness: the destination rectangle x1 = 101, y1 = 50, width = 639,
height = 359 stages CRTC_X = 100, CRTC_Y = 50, CRTC_W = 640,
CRTC_H = 360 on the freshly mapped buffer 1 (fb id 7, 1920x1080). -/
theorem set_video_plane_staging_c8_w :
    (SetVideoPlane envOk (MapB envOk st0 1).2.1 1 (CRect.mk 101 50 740 409)).2 =
      [BridgeEvent.stageProp PName.FB_ID 7,
       BridgeEvent.stageProp PName.CRTC_ID 5,
       BridgeEvent.stageProp PName.SRC_X 0,
       BridgeEvent.stageProp PName.SRC_Y 0,
       BridgeEvent.stageProp PName.SRC_W 125829120,
       BridgeEvent.stageProp PName.SRC_H 70778880,
       BridgeEvent.stageProp PName.CRTC_X 100,
       BridgeEvent.stageProp PName.CRTC_Y 50,
       BridgeEvent.stageProp PName.CRTC_W 640,
       BridgeEvent.stageProp PName.CRTC_H 360] ∧
    evenFloor 101 = 100 ∧ evenCeil 639 = 640 := by
  have h := set_video_plane_staging_c8 envOk (MapB envOk st0 1).2.1 1
    (CRect.mk 101 50 740 409) (by decide)
  refine ⟨?_, by decide, by decide⟩
  rw [h.1]
  decide

/-! ### C9 -/

/-- C9: submitting a picture into a slot that still holds a different
buffer logs the anomaly, destroys the slot fence, unmaps its texture and
releases the old occupant exactly once (its reference count drops by
exactly one) before installing the new buffer with one added reference. -/
theorem add_picture_occupied_c9 (st : RendState) (pic : RendPicture) (index old : Nat)
    (hidx : index < st.m_buffers.length)
    (hold : (st.m_buffers.getD index default).videoBuffer = some old)
    (hfo : (st.m_buffers.getD index default).fenceObj = true)
    (hne : old ≠ pic.videoBuffer)
    (hrc : 1 ≤ st.refCounts old) :
    (AddVideoPicture st pic index).2 =
      [RendEvent.logUnreleased, RendEvent.destroyFenceEv, RendEvent.unmapTexture,
       RendEvent.releaseRef old, RendEvent.acquireRef pic.videoBuffer] ∧
    (AddVideoPicture st pic index).1.refCounts old + 1 = st.refCounts old ∧
    (AddVideoPicture st pic index).1.refCounts pic.videoBuffer =
      st.refCounts pic.videoBuffer + 1 ∧
    ((AddVideoPicture st pic index).1.m_buffers.getD index default).videoBuffer =
      some pic.videoBuffer ∧
    ((AddVideoPicture st pic index).1.m_buffers.getD index default).fence = none ∧
    ((AddVideoPicture st pic index).1.m_buffers.getD index default).texMapped = false := by
  have hne2 : pic.videoBuffer ≠ old := Ne.symm hne
  refine ⟨?_, ?_, ?_, ?_, ?_, ?_⟩
  · simp only [AddVideoPicture, hold, hfo]
    simp
  · simp only [AddVideoPicture, hold, hfo]
    simp [incRef, decRef, hne, hne2]
    omega
  · simp only [AddVideoPicture, hold, hfo]
    simp [incRef, decRef, hne, hne2]
  · simp only [AddVideoPicture, hold, hfo]
    rw [getD_set_self _ _ _ hidx]
  · simp only [AddVideoPicture, hold, hfo]
    rw [getD_set_self _ _ _ hidx]
    simp
  · simp only [AddVideoPicture, hold, hfo]
    rw [getD_set_self _ _ _ hidx]

/-- A picture carrying decoder buffer 2 with BT.709 parameters. -/
def picB : RendPicture :=
  { videoBuffer := 2, format := 0, iWidth := 1920, iHeight := 1080,
    color_space := 1, color_primaries := 1, color_range := 0, colorBits := 8 }

/-- C9 witness: submitting buffer 2 into slot 0 of `rst0`, which still
holds buffer 1. -/
theorem add_picture_occupied_c9_w :
    (AddVideoPicture rst0 picB 0).2 =
      [RendEvent.logUnreleased, RendEvent.destroyFenceEv, RendEvent.unmapTexture,
       RendEvent.releaseRef 1, RendEvent.acquireRef picB.videoBuffer] ∧
    (AddVideoPicture rst0 picB 0).1.refCounts 1 + 1 = rst0.refCounts 1 ∧
    (AddVideoPicture rst0 picB 0).1.refCounts picB.videoBuffer =
      rst0.refCounts picB.videoBuffer + 1 ∧
    ((AddVideoPicture rst0 picB 0).1.m_buffers.getD 0 default).videoBuffer =
      some picB.videoBuffer ∧
    ((AddVideoPicture rst0 picB 0).1.m_buffers.getD 0 default).fence = none ∧
    ((AddVideoPicture rst0 picB 0).1.m_buffers.getD 0 default).texMapped = false :=
  add_picture_occupied_c9 rst0 picB 0 1 (by decide) (by decide) (by decide)
    (by decide) (by decide)

/-! ### C4 helper lemmas -/

/-- Recognizer for blob-creation calls in a bridge trace. -/
def isCreateBlob : BridgeEvent → Bool
  | BridgeEvent.createBlob _ => true
  | _ => false

theorem blobInv_erase (st : BridgeState) (h : blobInv st) :
    st.liveBlobs.erase st.m_hdr_blob_id = [] := by
  obtain ⟨hlen, hmem, hpos⟩ := h
  have hl : st.liveBlobs = [] ∨ ∃ x, st.liveBlobs = [x] := by
    cases hx : st.liveBlobs with
    | nil => exact Or.inl rfl
    | cons a t =>
      cases t with
      | nil => exact Or.inr ⟨a, rfl⟩
      | cons b t2 => rw [hx] at hlen; simp at hlen
  rcases hl with h0 | ⟨x, hx⟩
  · rw [h0]; rfl
  · have hxm := (hmem x (by rw [hx]; exact List.mem_singleton_self x)).1
    rw [hx, hxm]
    simp

theorem configureB_blobInv (env : HdrEnv) (st : BridgeState) (hinv : blobInv st) :
    blobInv (ConfigureB env st).1 := by
  have he := blobInv_erase st hinv
  obtain ⟨hlen, hmem, hpos⟩ := hinv
  by_cases hc : env.connSupportsHDR = true ∧ env.edidSupportsEOTF = true
  · simp only [ConfigureB, if_pos hc]
    refine ⟨?_, ?_, ?_⟩
    · simp [he]
    · intro id hid
      simp only [he] at hid
      simp at hid
      subst hid
      exact ⟨rfl, hpos, Nat.lt_succ_self _⟩
    · exact Nat.succ_pos _
  · simp only [ConfigureB, if_neg hc]
    exact ⟨hlen, hmem, hpos⟩

theorem disableB_blobInv (env : HdrEnv) (st : BridgeState) (hinv : blobInv st) :
    blobInv (DisableB env st).1 := by
  have he := blobInv_erase st hinv
  obtain ⟨hlen, hmem, hpos⟩ := hinv
  by_cases hc : env.connSupportsHDR = true
  · simp only [DisableB, if_pos hc]
    refine ⟨?_, ?_, ?_⟩
    · simp [he]
    · intro id hid
      simp [he] at hid
    · exact hpos
  · simp only [DisableB, if_neg hc]
    exact ⟨hlen, hmem, hpos⟩

theorem configureB_create_guard (env : HdrEnv) (st : BridgeState)
    (hno : ¬(env.connSupportsHDR = true ∧ env.edidSupportsEOTF = true)) :
    (ConfigureB env st).2.countP isCreateBlob = 0 := by
  simp only [ConfigureB, if_neg hno]
  cases h1 : env.planeColorEncoding <;> cases h2 : env.planeColorRange <;>
    cases h3 : env.connColorspace <;> cases h4 : env.edidSupportsColorimetry <;>
    simp [h4, List.countP_append, List.countP_cons, isCreateBlob]

theorem configureB_destroy_before_create (env : HdrEnv) (st : BridgeState)
    (h1 : env.connSupportsHDR = true) (h2 : env.edidSupportsEOTF = true)
    (h3 : st.m_hdr_blob_id ≠ 0) :
    [BridgeEvent.destroyBlob st.m_hdr_blob_id, BridgeEvent.createBlob st.nextBlobId,
     BridgeEvent.stageProp PName.HDR_OUTPUT_METADATA st.nextBlobId,
     BridgeEvent.setActiveEv] <:+ (ConfigureB env st).2 := by
  simp only [ConfigureB, if_pos (And.intro h1 h2), if_pos h3, List.append_assoc,
    List.singleton_append]
  exact ((List.suffix_append _ _).trans (List.suffix_append _ _)).trans
    (List.suffix_append _ _)

theorem disableB_hdr (env : HdrEnv) (st : BridgeState)
    (h1 : env.connSupportsHDR = true) :
    (DisableB env st).1.m_hdr_blob_id = 0 ∧
    (st.m_hdr_blob_id ≠ 0 →
      BridgeEvent.destroyBlob st.m_hdr_blob_id ∈ (DisableB env st).2) := by
  constructor
  · simp [DisableB, if_pos h1]
  · intro h3
    simp only [DisableB, if_pos h1, if_pos h3]
    simp

/-! ### C4 -/

/-- C4: the HDR blob lifecycle.  Under the at-most-one-live-blob invariant,
both `Configure` and `Disable` preserve it; `Configure` creates a blob only
when the connector exposes HDR_OUTPUT_METADATA and the EDID supports the
EOTF of the picture; when it creates one while an old blob is live its
trace ends with destroy-old, create-new, stage-new, set-active in that
order; and when the connector supports HDR metadata, `Disable` zeroes the
blob id and destroys the live blob. -/
theorem hdr_blob_lifecycle_c4 (env : HdrEnv) (st : BridgeState) (hinv : blobInv st) :
    blobInv (ConfigureB env st).1 ∧
    blobInv (DisableB env st).1 ∧
    (¬(env.connSupportsHDR = true ∧ env.edidSupportsEOTF = true) →
      (ConfigureB env st).2.countP isCreateBlob = 0) ∧
    (env.connSupportsHDR = true → env.edidSupportsEOTF = true →
      st.m_hdr_blob_id ≠ 0 →
      [BridgeEvent.destroyBlob st.m_hdr_blob_id, BridgeEvent.createBlob st.nextBlobId,
       BridgeEvent.stageProp PName.HDR_OUTPUT_METADATA st.nextBlobId,
       BridgeEvent.setActiveEv] <:+ (ConfigureB env st).2) ∧
    (env.connSupportsHDR = true →
      (DisableB env st).1.m_hdr_blob_id = 0 ∧
      (st.m_hdr_blob_id ≠ 0 →
        BridgeEvent.destroyBlob st.m_hdr_blob_id ∈ (DisableB env st).2)) :=
  ⟨configureB_blobInv env st hinv, disableB_blobInv env st hinv,
   fun hno => configureB_create_guard env st hno,
   fun h1 h2 h3 => configureB_destroy_before_create env st h1 h2 h3,
   fun h1 => disableB_hdr env st h1⟩

/-- An HDR-capable environment whose EDID supports the requested EOTF and
colorimetry. -/
def envHdr : HdrEnv :=
  { planeColorEncoding := some 1, planeColorRange := some 1, connColorspace := some 9,
    connColorspaceDefault := some 0, edidSupportsColorimetry := true,
    edidSupportsEOTF := true, connSupportsHDR := true, hasVideoPlane := true }

/-- A bridge state with one live HDR blob, id 3. -/
def stBlob : BridgeState :=
  { buffers := fun _ => baseBuf, m_buffer := none, m_prev_buffer := none,
    m_hdr_blob_id := 3, liveBlobs := [3], nextBlobId := 4 }

/-- C4 witness: configuring and disabling on a state with live blob 3
under the HDR-capable environment. -/
theorem hdr_blob_lifecycle_c4_w :
    blobInv (ConfigureB envHdr stBlob).1 ∧
    blobInv (DisableB envHdr stBlob).1 ∧
    (¬(envHdr.connSupportsHDR = true ∧ envHdr.edidSupportsEOTF = true) →
      (ConfigureB envHdr stBlob).2.countP isCreateBlob = 0) ∧
    (envHdr.connSupportsHDR = true → envHdr.edidSupportsEOTF = true →
      stBlob.m_hdr_blob_id ≠ 0 →
      [BridgeEvent.destroyBlob stBlob.m_hdr_blob_id,
       BridgeEvent.createBlob stBlob.nextBlobId,
       BridgeEvent.stageProp PName.HDR_OUTPUT_METADATA stBlob.nextBlobId,
       BridgeEvent.setActiveEv] <:+ (ConfigureB envHdr stBlob).2) ∧
    (envHdr.connSupportsHDR = true →
      (DisableB envHdr stBlob).1.m_hdr_blob_id = 0 ∧
      (stBlob.m_hdr_blob_id ≠ 0 →
        BridgeEvent.destroyBlob stBlob.m_hdr_blob_id ∈ (DisableB envHdr stBlob).2)) :=
  hdr_blob_lifecycle_c4 envHdr stBlob (by decide)

/-! ### C7 -/

/-- A three-layer descriptor made of two single-channel 8-bit layers plus
one interleaved-pair 8-bit layer, the literal shape named by the claim. -/
def descC7 : FrameDescriptor :=
  { objects := [⟨40, 0⟩, ⟨41, 0⟩, ⟨42, 0⟩],
    layers := [⟨DRM_FORMAT_R8, [⟨0, 128, 0⟩]⟩, ⟨DRM_FORMAT_R8, [⟨1, 64, 0⟩]⟩,
               ⟨DRM_FORMAT_GR88, [⟨2, 64, 0⟩]⟩] }

/-- C7 counterexample: on two single-channel 8-bit layers plus one
interleaved-pair 8-bit layer (three layers), the inference keeps layer 0
format R8; it does not produce NV12 as the claim states (the NV12 rule
requires exactly two layers, R8 plus GR88). -/
theorem format_inference_c7_cex :
    inferFormat descC7 = DRM_FORMAT_R8 ∧ inferFormat descC7 ≠ DRM_FORMAT_NV12 := by
  decide

theorem r8_ne_r16 : DRM_FORMAT_R8 ≠ DRM_FORMAT_R16 := by decide

theorem r16_ne_r8 : DRM_FORMAT_R16 ≠ DRM_FORMAT_R8 := by decide

/-- C7 amended: one single-channel layer plus one interleaved-pair layer
(two layers total) of 8-bit depth infer NV12; the 16-bit analog infers
P010; three single-channel 8-bit layers infer YUV420; any other shape
keeps layer 0 format; and on a two-layer descriptor with one plane per
layer the modifier-aware flag is set exactly when the modifier of the
object backing layer 0 plane 0 is non-zero and not the invalid
sentinel. -/
theorem format_inference_c7 (d : FrameDescriptor) (l0 l1 : LayerDesc)
    (p0 p1 : PlaneDesc) (hs : List Nat) :
    (d.layers.length = 2 → (d.layers.getD 0 ⟨0, []⟩).format = DRM_FORMAT_R8 →
      (d.layers.getD 1 ⟨0, []⟩).format = DRM_FORMAT_GR88 →
      inferFormat d = DRM_FORMAT_NV12) ∧
    (d.layers.length = 2 → (d.layers.getD 0 ⟨0, []⟩).format = DRM_FORMAT_R16 →
      (d.layers.getD 1 ⟨0, []⟩).format = DRM_FORMAT_GR1616 →
      inferFormat d = DRM_FORMAT_P010) ∧
    (d.layers.length = 3 → (d.layers.getD 0 ⟨0, []⟩).format = DRM_FORMAT_R8 →
      (d.layers.getD 1 ⟨0, []⟩).format = DRM_FORMAT_R8 →
      (d.layers.getD 2 ⟨0, []⟩).format = DRM_FORMAT_R8 →
      inferFormat d = DRM_FORMAT_YUV420) ∧
    (¬(d.layers.length = 2 ∧ (d.layers.getD 0 ⟨0, []⟩).format = DRM_FORMAT_R8 ∧
          (d.layers.getD 1 ⟨0, []⟩).format = DRM_FORMAT_GR88) →
      ¬(d.layers.length = 2 ∧ (d.layers.getD 0 ⟨0, []⟩).format = DRM_FORMAT_R16 ∧
          (d.layers.getD 1 ⟨0, []⟩).format = DRM_FORMAT_GR1616) →
      ¬(d.layers.length = 3 ∧ (d.layers.getD 0 ⟨0, []⟩).format = DRM_FORMAT_R8 ∧
          (d.layers.getD 1 ⟨0, []⟩).format = DRM_FORMAT_R8 ∧
          (d.layers.getD 2 ⟨0, []⟩).format = DRM_FORMAT_R8) →
      inferFormat d = (d.layers.getD 0 ⟨0, []⟩).format) ∧
    (d.layers = [l0, l1] → l0.planes = [p0] → l1.planes = [p1] →
      (fbFlags (fillArrays d hs).modifier = DRM_MODE_FB_MODIFIERS ↔
        ((d.objects.getD p0.object_index ⟨0, 0⟩).format_modifier ≠ 0 ∧
          (d.objects.getD p0.object_index ⟨0, 0⟩).format_modifier ≠
            DRM_FORMAT_MOD_INVALID))) := by
  refine ⟨?_, ?_, ?_, ?_, ?_⟩
  · intro hlen h0 h1
    simp only [inferFormat]
    rw [if_neg (fun hcnd => absurd (hlen.symm.trans hcnd.1) (by decide)),
      if_neg (fun hcnd => absurd (h0.symm.trans hcnd.2.1) r8_ne_r16),
      if_pos (And.intro hlen (And.intro h0 h1))]
  · intro hlen h0 h1
    simp only [inferFormat]
    rw [if_neg (fun hcnd => absurd (hlen.symm.trans hcnd.1) (by decide)),
      if_pos (And.intro hlen (And.intro h0 h1))]
  · intro hlen h0 h1 h2
    simp only [inferFormat]
    rw [if_pos (And.intro hlen (And.intro h0 (And.intro h1 h2)))]
  · intro h1 h2 h3
    simp only [inferFormat]
    rw [if_neg h3, if_neg h2, if_neg h1]
  · intro hd hp0 hp1
    obtain ⟨objs, layers⟩ := d
    simp only at hd
    subst hd
    obtain ⟨f0, ps0⟩ := l0
    obtain ⟨f1, ps1⟩ := l1
    simp only at hp0 hp1
    subst hp0
    subst hp1
    have harr : (fillArrays ⟨objs, [⟨f0, [p0]⟩, ⟨f1, [p1]⟩]⟩ hs).modifier =
        [(objs.getD p0.object_index ⟨0, 0⟩).format_modifier,
         (objs.getD p1.object_index ⟨0, 0⟩).format_modifier, 0, 0] := rfl
    rw [harr]
    unfold fbFlags
    simp only [List.getD_cons_zero]
    by_cases hc : (objs.getD p0.object_index ⟨0, 0⟩).format_modifier ≠ 0 ∧
        (objs.getD p0.object_index ⟨0, 0⟩).format_modifier ≠ DRM_FORMAT_MOD_INVALID
    · rw [if_pos hc]
      simp only [true_iff, eq_self_iff_true]
      simpa using hc
    · rw [if_neg hc]
      simp only [DRM_MODE_FB_MODIFIERS]
      simp
      simpa using hc

/-- A two-layer P010-shaped descriptor. -/
def descP010 : FrameDescriptor :=
  { objects := [⟨32, 0⟩],
    layers := [⟨DRM_FORMAT_R16, [⟨0, 256, 0⟩]⟩, ⟨DRM_FORMAT_GR1616, [⟨0, 256, 0⟩]⟩] }

/-- A three-layer YUV420-shaped descriptor. -/
def descYUV : FrameDescriptor :=
  { objects := [⟨33, 0⟩],
    layers := [⟨DRM_FORMAT_R8, [⟨0, 128, 0⟩]⟩, ⟨DRM_FORMAT_R8, [⟨0, 64, 0⟩]⟩,
               ⟨DRM_FORMAT_R8, [⟨0, 64, 0⟩]⟩] }

/-- C7 witness for the amended theorem on the three concrete shapes plus
the flags characterization on the NV12 descriptor. -/
theorem format_inference_c7_w :
    inferFormat descNV = DRM_FORMAT_NV12 ∧
    inferFormat descP010 = DRM_FORMAT_P010 ∧
    inferFormat descYUV = DRM_FORMAT_YUV420 ∧
    (fbFlags (fillArrays descNV [100, 101, 0, 0]).modifier = DRM_MODE_FB_MODIFIERS ↔
      ((descNV.objects.getD 0 ⟨0, 0⟩).format_modifier ≠ 0 ∧
        (descNV.objects.getD 0 ⟨0, 0⟩).format_modifier ≠ DRM_FORMAT_MOD_INVALID)) :=
  ⟨(format_inference_c7 descNV ⟨0, []⟩ ⟨0, []⟩ ⟨0, 0, 0⟩ ⟨0, 0, 0⟩ []).1
      (by decide) (by decide) (by decide),
   (format_inference_c7 descP010 ⟨0, []⟩ ⟨0, []⟩ ⟨0, 0, 0⟩ ⟨0, 0, 0⟩ []).2.1
      (by decide) (by decide) (by decide),
   (format_inference_c7 descYUV ⟨0, []⟩ ⟨0, []⟩ ⟨0, 0, 0⟩ ⟨0, 0, 0⟩ []).2.2.1
      (by decide) (by decide) (by decide) (by decide),
   (format_inference_c7 descNV ⟨DRM_FORMAT_R8, [⟨0, 128, 0⟩]⟩
        ⟨DRM_FORMAT_GR88, [⟨1, 128, 0⟩]⟩ ⟨0, 128, 0⟩ ⟨1, 128, 0⟩
        [100, 101, 0, 0]).2.2.2.2 (by decide) (by decide) (by decide)⟩

/-! ### C3 helper lemmas -/

/-- Recognizer for atomic-property staging calls in a bridge trace. -/
def isStageProp : BridgeEvent → Bool
  | BridgeEvent.stageProp _ _ => true
  | _ => false

theorem closeHandles_no_stage (hs : List Nat) :
    (closeHandles hs).2.countP isStageProp = 0 := by
  induction hs with
  | nil => rfl
  | cons h t ih =>
    simp only [closeHandles]
    split <;> simp [List.countP_cons, ih, isStageProp]

theorem unmap_no_stage (st : BridgeState) (bid : Nat) :
    (Unmap st bid).2.countP isStageProp = 0 := by
  simp only [Unmap]
  split <;>
    simp [List.countP_append, List.countP_cons, closeHandles_no_stage, isStageProp]

theorem releaseB_no_stage (st : BridgeState) (ob : Option Nat) :
    (ReleaseB st ob).2.countP isStageProp = 0 := by
  cases ob with
  | none => rfl
  | some bid =>
    simp [ReleaseB, List.countP_append, List.countP_cons, unmap_no_stage, isStageProp]

theorem acquire_no_stage (st : BridgeState) (bid : Nat) :
    (Acquire st bid).2.countP isStageProp = 0 := by
  simp [Acquire, List.countP_append, List.countP_cons, releaseB_no_stage, isStageProp]

theorem fdConvert_no_stage (env : DrmEnv) (objs : List ObjectDesc) :
    ∀ (idx : Nat) (hs : List Nat),
      ((fdConvert env objs idx hs).2.2).countP isStageProp = 0 := by
  induction objs with
  | nil => intro idx hs; rfl
  | cons o rest ih =>
    intro idx hs
    unfold fdConvert
    cases henv : env.fd2handle o.fd with
    | none => simp [List.countP_cons, isStageProp]
    | some h => simp [List.countP_cons, isStageProp, ih]

theorem mapB_no_stage (env : DrmEnv) (st : BridgeState) (bid : Nat) :
    (MapB env st bid).2.2.countP isStageProp = 0 := by
  by_cases hfb : (st.buffers bid).m_fb_id ≠ 0
  · rw [mapB_mapped env st bid hfb]
    rfl
  · by_cases hdesc : (st.buffers bid).acquireDescOk = false
    · simp [MapB, hfb, hdesc, isStageProp]
    · by_cases hconv : (fdConvert env (st.buffers bid).descriptor.objects 0
          (st.buffers bid).m_handles).1 = false
      · simp only [MapB, if_neg hfb, if_neg hdesc, if_pos hconv]
        simp [List.countP_cons, isStageProp, fdConvert_no_stage]
      · cases haddfb : env.addFBId with
        | none =>
          simp only [MapB, if_neg hfb, if_neg hdesc, if_neg hconv, haddfb]
          simp [List.countP_append, List.countP_cons, isStageProp, fdConvert_no_stage]
        | some fb =>
          rw [mapB_fresh_success env st bid hfb hdesc hconv fb haddfb]
          simp [List.countP_append, List.countP_cons, isStageProp,
            fdConvert_no_stage, acquire_no_stage]

/-- A failed `Map` does not touch the current/previous buffer pointers
(the final `Acquire` is reached only on the fresh-success path). -/
theorem mapB_fail_pointers (env : DrmEnv) (st : BridgeState) (bid : Nat)
    (hf : (MapB env st bid).1 = false) :
    (MapB env st bid).2.1.m_buffer = st.m_buffer ∧
    (MapB env st bid).2.1.m_prev_buffer = st.m_prev_buffer := by
  by_cases hfb : (st.buffers bid).m_fb_id ≠ 0
  · rw [mapB_mapped env st bid hfb] at hf
    exact Bool.noConfusion hf
  · by_cases hdesc : (st.buffers bid).acquireDescOk = false
    · simp only [MapB, if_neg hfb, if_pos hdesc]
      exact ⟨trivial, trivial⟩
    · by_cases hconv : (fdConvert env (st.buffers bid).descriptor.objects 0
          (st.buffers bid).m_handles).1 = false
      · simp only [MapB, if_neg hfb, if_neg hdesc, if_pos hconv]
        exact ⟨trivial, trivial⟩
      · cases haddfb : env.addFBId with
        | none =>
          simp only [MapB, if_neg hfb, if_neg hdesc, if_neg hconv, haddfb]
          exact ⟨trivial, trivial⟩
        | some fb =>
          rw [mapB_fresh_success env st bid hfb hdesc hconv fb haddfb] at hf
          exact Bool.noConfusion hf

theorem releaseBuffer_length (st : RendState) (i : Nat) :
    (ReleaseBuffer st i).1.m_buffers.length = st.m_buffers.length := by
  simp only [ReleaseBuffer]
  split <;> simp

theorem releaseBuffer_empty (st : RendState) (i : Nat) (hi : i < st.m_buffers.length) :
    ((ReleaseBuffer st i).1.m_buffers.getD i default).videoBuffer = none := by
  simp only [ReleaseBuffer]
  split
  · rw [getD_set_self _ _ _ hi]
  · next h => rw [getD_set_self _ _ _ hi]; exact h

theorem releaseBuffer_other (st : RendState) (i j : Nat) (hne : j ≠ i) :
    (ReleaseBuffer st i).1.m_buffers.getD j default =
      st.m_buffers.getD j default := by
  simp only [ReleaseBuffer]
  split <;> rw [getD_set_ne _ _ _ _ hne]

theorem releaseBuffer_fields (st : RendState) (i : Nat) :
    (ReleaseBuffer st i).1.m_format = st.m_format ∧
    (ReleaseBuffer st i).1.m_sourceWidth = st.m_sourceWidth := by
  simp only [ReleaseBuffer]
  split <;> exact ⟨rfl, rfl⟩

theorem releaseAll_fields (st : RendState) (n : Nat) :
    (releaseAll st n).m_format = st.m_format ∧
    (releaseAll st n).m_sourceWidth = st.m_sourceWidth := by
  induction n with
  | zero => exact ⟨rfl, rfl⟩
  | succ n ih =>
    simp only [releaseAll]
    exact ⟨(releaseBuffer_fields _ n).1.trans ih.1,
      (releaseBuffer_fields _ n).2.trans ih.2⟩

theorem releaseAll_length (st : RendState) (n : Nat) :
    (releaseAll st n).m_buffers.length = st.m_buffers.length := by
  induction n with
  | zero => rfl
  | succ n ih =>
    simp only [releaseAll]
    rw [releaseBuffer_length, ih]

theorem releaseAll_empty (st : RendState) (n : Nat) :
    ∀ i, i < n → n ≤ st.m_buffers.length →
      ((releaseAll st n).m_buffers.getD i default).videoBuffer = none := by
  induction n with
  | zero => intro i hi _; omega
  | succ n ih =>
    intro i hi hlen
    simp only [releaseAll]
    by_cases hin : i = n
    · subst hin
      exact releaseBuffer_empty _ i (by rw [releaseAll_length]; omega)
    · rw [releaseBuffer_other _ _ _ hin]
      exact ih i (by omega) (by omega)

/-! ### C3 -/

/-- A DRM environment whose prime-fd conversion succeeds for fd 30 and
fails for every other fd. -/
def envFail : DrmEnv :=
  { fd2handle := fun fd => if fd = 30 then some 100 else none,
    addFBId := some 7, crtcId := 5 }

/-- C3 counterexample: on buffer 1 of the empty bridge (two dma-buf
objects, fds 30 and 31), the second prime-fd conversion fails: `Map`
returns false but the buffer keeps the first imported GEM handle and the
acquired descriptor, so the component state is not the pre-call state. -/
theorem map_failure_state_c3_cex :
    (MapB envFail st0 1).1 = false ∧
    ((MapB envFail st0 1).2.1.buffers 1).m_handles = [100, 0, 0, 0] ∧
    ((MapB envFail st0 1).2.1.buffers 1).m_handles ≠ (st0.buffers 1).m_handles ∧
    ((MapB envFail st0 1).2.1.buffers 1).descRefs = 1 ∧
    (st0.buffers 1).descRefs = 0 := by
  decide

/-- A renderer environment with no window system available. -/
def renvNoWin : RendEnv :=
  { hasWinSystem := false, isEGLWinSystem := false, hasRenderSystem := false,
    bufferValid := fun _ => true, textureMapOk := fun _ => true }

/-- C3 amended: each transient failure returns a failure status, but the
pre-call state is not restored within the failing call itself.  A failed
`Map` leaves the current/previous pointers untouched yet may retain
imported handles and the acquired descriptor; the caller `SetVideoPlane`
restores the import state by unmapping (all handles and the framebuffer id
end up zero) and stages nothing.  A `Configure` without a display/GPU
context returns false but has already stored the new configuration fields
and released every slot. -/
theorem failure_handling_c3 (env : DrmEnv) (st : BridgeState) (bid : Nat) (r : CRect)
    (renv : RendEnv) (rst : RendState) (pic : RendPicture) (orient : Nat)
    (h4 : (st.buffers bid).m_handles.length = 4)
    (hmapfail : (MapB env st bid).1 = false)
    (hwin : renv.hasWinSystem = false)
    (hlen : rst.m_buffers.length = NUM_BUFFERS) :
    ((MapB env st bid).2.1.m_buffer = st.m_buffer ∧
      (MapB env st bid).2.1.m_prev_buffer = st.m_prev_buffer) ∧
    (((SetVideoPlane env st bid r).1.buffers bid).m_handles = [0, 0, 0, 0] ∧
      ((SetVideoPlane env st bid r).1.buffers bid).m_fb_id = 0 ∧
      (SetVideoPlane env st bid r).2.countP isStageProp = 0) ∧
    ((rendConfigure renv rst pic orient).1 = false ∧
      (rendConfigure renv rst pic orient).2.m_sourceWidth = pic.iWidth ∧
      (rendConfigure renv rst pic orient).2.m_format = pic.format ∧
      (∀ i, i < NUM_BUFFERS →
        (((rendConfigure renv rst pic orient).2.m_buffers.getD i default)).videoBuffer =
          none)) := by
  have hsvp : SetVideoPlane env st bid r =
      ((Unmap (MapB env st bid).2.1 bid).1,
       (MapB env st bid).2.2 ++ (Unmap (MapB env st bid).2.1 bid).2) := by
    simp only [SetVideoPlane, hmapfail]
    rfl
  refine ⟨mapB_fail_pointers env st bid hmapfail, ⟨?_, ?_, ?_⟩, ?_, ?_, ?_, ?_⟩
  · rw [hsvp]
    dsimp only
    rw [unmap_handles_eq, mapB_handles_length, h4]
    rfl
  · rw [hsvp]
    dsimp only
    exact unmap_fb_eq _ bid
  · rw [hsvp]
    dsimp only
    rw [List.countP_append, mapB_no_stage, unmap_no_stage]
  · simp [rendConfigure, hwin]
  · simp only [rendConfigure, if_pos hwin, rendFlush]
    simp only [Bool.false_eq_true, if_false]
    exact (releaseAll_fields _ _).2
  · simp only [rendConfigure, if_pos hwin, rendFlush]
    simp only [Bool.false_eq_true, if_false]
    exact (releaseAll_fields _ _).1
  · intro i hi
    simp only [rendConfigure, if_pos hwin, rendFlush]
    simp only [Bool.false_eq_true, if_false]
    exact releaseAll_empty _ NUM_BUFFERS i hi (le_of_eq hlen.symm)

/-- C3 witness: the partially failing Map on buffer 1 with `SetVideoPlane`
cleanup, and the renderer Configure without a window system. -/
theorem failure_handling_c3_w :
    ((MapB envFail st0 1).2.1.m_buffer = st0.m_buffer ∧
      (MapB envFail st0 1).2.1.m_prev_buffer = st0.m_prev_buffer) ∧
    (((SetVideoPlane envFail st0 1 (CRect.mk 0 0 100 100)).1.buffers 1).m_handles =
        [0, 0, 0, 0] ∧
      ((SetVideoPlane envFail st0 1 (CRect.mk 0 0 100 100)).1.buffers 1).m_fb_id = 0 ∧
      (SetVideoPlane envFail st0 1 (CRect.mk 0 0 100 100)).2.countP isStageProp = 0) ∧
    ((rendConfigure renvNoWin rst0 picB 0).1 = false ∧
      (rendConfigure renvNoWin rst0 picB 0).2.m_sourceWidth = picB.iWidth ∧
      (rendConfigure renvNoWin rst0 picB 0).2.m_format = picB.format ∧
      (∀ i, i < NUM_BUFFERS →
        (((rendConfigure renvNoWin rst0 picB 0).2.m_buffers.getD i default)).videoBuffer =
          none)) :=
  failure_handling_c3 envFail st0 1 (CRect.mk 0 0 100 100) renvNoWin rst0 picB 0
    (by decide) (by decide) (by decide) (by decide)

/-! ### C10 -/

/-- A small destination rectangle used by the C10 scenario. -/
def rect0 : CRect := ⟨0, 0, 100, 100⟩

/-- C10 counterexample: after SetVideoPlane(1), SetVideoPlane(2),
a third SetVideoPlane(1) succeeds (its Map returns true because buffer 1
is still mapped) yet leaves buffer 2, not buffer 1, as the current
buffer: Map early-returns without performing Acquire. -/
theorem map_acquire_c10_cex :
    (MapB envOk (SetVideoPlane envOk (SetVideoPlane envOk st0 1 rect0).1 2 rect0).1 1).1 =
      true ∧
    (SetVideoPlane envOk
        (SetVideoPlane envOk (SetVideoPlane envOk st0 1 rect0).1 2 rect0).1 1
        rect0).1.m_buffer = some 2 ∧
    (SetVideoPlane envOk
        (SetVideoPlane envOk (SetVideoPlane envOk st0 1 rect0).1 2 rect0).1 1
        rect0).1.m_buffer ≠ some 1 := by
  decide

theorem mapMid_refCount (env : DrmEnv) (st : BridgeState) (bid fb j : Nat) :
    ((mapMid env st bid fb).buffers j).refCount = (st.buffers j).refCount := by
  simp only [mapMid, updateBuf]
  by_cases h : j = bid <;> simp [h]

/-- C10 amended: a Map that performs a fresh import and returns true ends
with Acquire: the buffer becomes current with one added reference, the old
current moves to previous, and the old previous is released; a Map that
returns false leaves current and previous unchanged; and a Map on an
already-mapped buffer returns true immediately with the whole state
unchanged (so after a successful SetVideoPlane of an already-mapped buffer
the current buffer may differ from its argument). -/
theorem map_acquire_c10 (env : DrmEnv) (st : BridgeState) (bid : Nat)
    (hfb0 : (st.buffers bid).m_fb_id = 0)
    (hok : (MapB env st bid).1 = true)
    (hprev : st.m_prev_buffer ≠ some bid) :
    (MapB env st bid).2.1.m_buffer = some bid ∧
    (MapB env st bid).2.1.m_prev_buffer = st.m_buffer ∧
    ((MapB env st bid).2.1.buffers bid).refCount = (st.buffers bid).refCount + 1 ∧
    (∀ p, st.m_prev_buffer = some p →
      ((MapB env st bid).2.1.buffers p).refCount = (st.buffers p).refCount - 1 ∧
      BridgeEvent.releaseRef p ∈ (MapB env st bid).2.2) ∧
    (∀ env2 : DrmEnv, ∀ st2 : BridgeState, ∀ b2 : Nat,
      (MapB env2 st2 b2).1 = false →
      (MapB env2 st2 b2).2.1.m_buffer = st2.m_buffer ∧
      (MapB env2 st2 b2).2.1.m_prev_buffer = st2.m_prev_buffer) ∧
    (∀ env2 : DrmEnv, ∀ st2 : BridgeState, ∀ b2 : Nat,
      (st2.buffers b2).m_fb_id ≠ 0 → MapB env2 st2 b2 = (true, st2, [])) := by
  have hfb : ¬(st.buffers bid).m_fb_id ≠ 0 := by simp [hfb0]
  by_cases hdesc : (st.buffers bid).acquireDescOk = false
  · simp only [MapB, if_neg hfb, if_pos hdesc] at hok
    exact Bool.noConfusion hok
  · by_cases hconv : (fdConvert env (st.buffers bid).descriptor.objects 0
        (st.buffers bid).m_handles).1 = false
    · simp only [MapB, if_neg hfb, if_neg hdesc, if_pos hconv] at hok
      exact Bool.noConfusion hok
    · cases haddfb : env.addFBId with
      | none =>
        simp only [MapB, if_neg hfb, if_neg hdesc, if_neg hconv, haddfb] at hok
        exact Bool.noConfusion hok
      | some fb =>
        have heq := mapB_fresh_success env st bid hfb hdesc hconv fb haddfb
        have hmprev : (mapMid env st bid fb).m_prev_buffer ≠ some bid := hprev
        refine ⟨?_, ?_, ?_, ?_,
          fun env2 st2 b2 hf => mapB_fail_pointers env2 st2 b2 hf,
          fun env2 st2 b2 h2 => mapB_mapped env2 st2 b2 h2⟩
        · rw [heq]
          exact acquire_m_buffer _ bid
        · rw [heq]
          dsimp only
          rw [acquire_m_prev_buffer]
          rfl
        · rw [heq]
          dsimp only
          rw [acquire_refCount_self _ _ hmprev, mapMid_refCount]
        · intro p hp
          have hpne : p ≠ bid := by
            rintro rfl
            exact hprev hp
          constructor
          · rw [heq]
            dsimp only
            rw [acquire_refCount_prev _ _ _ (by rw [mapMid_m_prev_buffer, hp]) hpne,
              mapMid_refCount]
          · rw [heq]
            dsimp only
            refine List.mem_cons_of_mem _ (List.mem_append_right _ ?_)
            rw [acquire_events, mapMid_m_prev_buffer, hp, releaseB_events_some]
            simp

/-- A bridge state whose current and previous slots hold buffers 2 and 3. -/
def stHeld : BridgeState :=
  { buffers := fun _ => baseBuf, m_buffer := some 2, m_prev_buffer := some 3,
    m_hdr_blob_id := 0, liveBlobs := [], nextBlobId := 1 }

/-- C10 witness: a fresh successful Map of buffer 1 on a bridge holding
buffer 2 as current and buffer 3 as previous. -/
theorem map_acquire_c10_w :
    (MapB envOk stHeld 1).2.1.m_buffer = some 1 ∧
    (MapB envOk stHeld 1).2.1.m_prev_buffer = stHeld.m_buffer ∧
    ((MapB envOk stHeld 1).2.1.buffers 1).refCount = (stHeld.buffers 1).refCount + 1 ∧
    (∀ p, stHeld.m_prev_buffer = some p →
      ((MapB envOk stHeld 1).2.1.buffers p).refCount = (stHeld.buffers p).refCount - 1 ∧
      BridgeEvent.releaseRef p ∈ (MapB envOk stHeld 1).2.2) ∧
    (∀ env2 : DrmEnv, ∀ st2 : BridgeState, ∀ b2 : Nat,
      (MapB env2 st2 b2).1 = false →
      (MapB env2 st2 b2).2.1.m_buffer = st2.m_buffer ∧
      (MapB env2 st2 b2).2.1.m_prev_buffer = st2.m_prev_buffer) ∧
    (∀ env2 : DrmEnv, ∀ st2 : BridgeState, ∀ b2 : Nat,
      (st2.buffers b2).m_fb_id ≠ 0 → MapB env2 st2 b2 = (true, st2, [])) :=
  map_acquire_c10 envOk stHeld 1 (by decide) (by decide) (by decide)

end DRMPrime
